import Mathlib

/-!
Shallow embedding of the custom color preset core of the
obsidian-oxygen-settings repository.

Sources embedded here:
  - src/utils/color-utils.ts            (HSL/hex conversion, validation, slug routines)
  - src/utils/preset-color-defaults.ts  (getDefaultColorForKey)
  - src/presets/CustomPreset.ts         (data model)
  - src/presets/preset-css-generator.ts (PresetCSSGenerator.generateCSS)
  - src/presets/PresetManager.ts        (registry: create, import, export)

Modelling conventions: JavaScript numbers are rationals (`Rat`), except the
WCAG gamma term Math.pow(x, 2.4) which is `Real.rpow`; JS strings are Lean
strings; thrown exceptions are `Except.error` with the thrown message.
-/

/-- JavaScript Math.round: round half toward positive infinity,
    Math.round(x) = floor(x + 1/2). -/
def mathRound (q : ℚ) : ℤ := ⌊q + 1/2⌋

/-- HSLColor from src/presets/CustomPreset.ts: `{h, s, l : number}`. -/
structure HSLColor where
  h : ℚ
  s : ℚ
  l : ℚ
  deriving DecidableEq, Repr

/-- ColorOverrides from src/presets/CustomPreset.ts: twenty optional
    literal color strings. -/
structure ColorOverrides where
  bg1 : Option String := none
  bg2 : Option String := none
  bg3 : Option String := none
  ui1 : Option String := none
  ui2 : Option String := none
  ui3 : Option String := none
  tx1 : Option String := none
  tx2 : Option String := none
  tx3 : Option String := none
  tx4 : Option String := none
  hl1 : Option String := none
  hl2 : Option String := none
  red : Option String := none
  orange : Option String := none
  yellow : Option String := none
  green : Option String := none
  cyan : Option String := none
  blue : Option String := none
  purple : Option String := none
  pink : Option String := none
  deriving DecidableEq, Repr

/-- ColorPalette from src/presets/CustomPreset.ts. -/
structure ColorPalette where
  base : HSLColor
  accent : HSLColor
  colors : Option ColorOverrides := none
  frameLightnessOffset : Option ℚ := none
  deriving DecidableEq, Repr

/-- CustomColorPreset from src/presets/CustomPreset.ts.  The optional
    `author`/`version` fields are modelled as strings (every constructor in
    the source fills them with a string default). -/
structure CustomColorPreset where
  id : String
  name : String
  author : String := ""
  version : String := "1.0.0"
  light : ColorPalette
  dark : ColorPalette
  deriving DecidableEq, Repr

/-- The two theme modes (the literal union type light | dark). -/
inductive OxMode where
  | light
  | dark
  deriving DecidableEq, Repr

/-! ## Color conversion (src/utils/color-utils.ts) -/

/-- Lowercase hexadecimal digit characters, as produced by JS
    Number.toString(16). -/
def hexDigitChar (n : ℕ) : Char :=
  "0123456789abcdef".data.getD n '0'

/-- Hexadecimal digit recognition for parseInt(_, 16): 0-9, a-f, A-F. -/
def isHexDigitChar (c : Char) : Bool :=
  (c ≥ '0' && c ≤ '9') || (c ≥ 'a' && c ≤ 'f') || (c ≥ 'A' && c ≤ 'F')

/-- Numeric value of a hexadecimal digit character (0 for other characters;
    such characters never reach this function on the documented domain). -/
def hexCharVal (c : Char) : ℕ :=
  if c ≥ '0' && c ≤ '9' then c.toNat - '0'.toNat
  else if c ≥ 'a' && c ≤ 'f' then c.toNat - 'a'.toNat + 10
  else if c ≥ 'A' && c ≤ 'F' then c.toNat - 'A'.toNat + 10
  else 0

/-- parseInt(s, 16) accumulator: consumes the maximal leading run of hex
    digits. -/
def parseIntHexAux : List Char → ℕ → ℕ
  | [], acc => acc
  | c :: cs, acc =>
    if isHexDigitChar c then parseIntHexAux cs (16 * acc + hexCharVal c) else acc

/-- parseInt(s, 16): value of the maximal valid prefix.  An input with no
    leading hex digit gives NaN in JS and propagates garbage; that case is
    modelled as 0 (the spec documents hexToHSL as garbage on malformed
    input, and no claim exercises it). -/
def parseIntHex (l : List Char) : ℕ := parseIntHexAux l 0

/-- String.replace with pattern # and empty replacement: deletes the first
    # character, if any. -/
def replaceFirstHash : List Char → List Char
  | [] => []
  | c :: cs => if c = '#' then cs else c :: replaceFirstHash cs

/-- hexToHSL from src/utils/color-utils.ts. -/
def hexToHSL (hex : String) : HSLColor :=
  let cs := replaceFirstHash hex.data
  let r : ℚ := (parseIntHex (cs.take 2) : ℚ) / 255
  let g : ℚ := (parseIntHex ((cs.drop 2).take 2) : ℚ) / 255
  let b : ℚ := (parseIntHex ((cs.drop 4).take 2) : ℚ) / 255
  let maxv := max r (max g b)
  let minv := min r (min g b)
  let l : ℚ := (maxv + minv) / 2
  let d := maxv - minv
  let s : ℚ :=
    if maxv = minv then 0
    else if l > 1/2 then d / (2 - maxv - minv) else d / (maxv + minv)
  let hsector : ℚ :=
    if maxv = minv then 0
    else if maxv = r then (g - b) / d + (if g < b then 6 else 0)
    else if maxv = g then (b - r) / d + 2
    else (r - g) / d + 4
  let h := hsector / 6
  ⟨(mathRound (h * 360) : ℤ), (mathRound (s * 100) : ℤ), (mathRound (l * 100) : ℤ)⟩

/-- hue2rgb helper from hslToHex in src/utils/color-utils.ts. -/
def hue2rgb (p q t : ℚ) : ℚ :=
  let t1 := if t < 0 then t + 1 else t
  let t2 := if t1 > 1 then t1 - 1 else t1
  if t2 < 1/6 then p + (q - p) * 6 * t2
  else if t2 < 1/2 then q
  else if t2 < 2/3 then p + (q - p) * (2/3 - t2) * 6
  else p

/-- toHex helper from hslToHex: n.toString(16) zero-padded to two digits.
    The callers only pass 0 ≤ n ≤ 255, where toString(16) yields one or two
    lowercase digits. -/
def toHexByte (n : ℕ) : String :=
  let ds := if n < 16 then [hexDigitChar n] else [hexDigitChar (n / 16), hexDigitChar (n % 16)]
  ⟨if ds.length = 1 then '0' :: ds else ds⟩

/-- hslToHex from src/utils/color-utils.ts. -/
def hslToHex (hsl : HSLColor) : String :=
  let h := hsl.h / 360
  let s := hsl.s / 100
  let l := hsl.l / 100
  let rgb : ℚ × ℚ × ℚ :=
    if s = 0 then (l, l, l)
    else
      let q := if l < 1/2 then l * (1 + s) else l + s - l * s
      let p := 2 * l - q
      (hue2rgb p q (h + 1/3), hue2rgb p q h, hue2rgb p q (h - 1/3))
  let toHex : ℚ → String := fun c => toHexByte (mathRound (c * 255)).toNat
  "#" ++ toHex rgb.1 ++ toHex rgb.2.1 ++ toHex rgb.2.2

/-- validateHSL from src/utils/color-utils.ts. -/
def validateHSL (hsl : HSLColor) : Bool :=
  decide (hsl.h ≥ 0) && decide (hsl.h ≤ 360) &&
  decide (hsl.s ≥ 0) && decide (hsl.s ≤ 100) &&
  decide (hsl.l ≥ 0) && decide (hsl.l ≤ 100)

/-- Characters stripped by sanitizePresetName. -/
def forbiddenNameChar (c : Char) : Bool :=
  c = '<' || c = '>' || c = ':' || c = '"' || c = '/' || c = '\\' ||
  c = '|' || c = '?' || c = '*'

/-- sanitizePresetName from src/utils/color-utils.ts: trim then strip the
    forbidden characters everywhere. -/
def sanitizePresetName (name : String) : String :=
  ⟨name.trim.data.filter (fun c => !(forbiddenNameChar c))⟩

/-- Length bound used for the termination of squashWhitespace. -/
theorem length_dropWhile_le_self (p : Char → Bool) (cs : List Char) :
    (cs.dropWhile p).length ≤ cs.length := by
  induction cs with
  | nil => simp [List.dropWhile]
  | cons c cs ih =>
    simp only [List.dropWhile]
    split
    · exact Nat.le_succ_of_le ih
    · simp

/-- One simplification of String.replace over regex whitespace-runs with
    hyphen replacement: each maximal whitespace run becomes one hyphen. -/
def squashWhitespace : List Char → List Char
  | [] => []
  | c :: cs =>
    if c.isWhitespace then '-' :: squashWhitespace (cs.dropWhile Char.isWhitespace)
    else c :: squashWhitespace cs
  termination_by l => l.length
  decreasing_by
    · simp only [List.length_cons]
      have := length_dropWhile_le_self Char.isWhitespace cs
      omega
    · simp

/-- Slug alphabet of generatePresetId: the character class [a-z0-9-]. -/
def slugChar (c : Char) : Bool :=
  (c ≥ 'a' && c ≤ 'z') || (c ≥ '0' && c ≤ '9') || c = '-'

/-- generatePresetId from src/utils/color-utils.ts: sanitize, lowercase,
    whitespace runs to hyphens, strip non [a-z0-9-], truncate to 50. -/
def generatePresetId (name : String) : String :=
  ⟨((squashWhitespace ((sanitizePresetName name).data.map Char.toLower)).filter
      slugChar).take 50⟩

/-- validatePresetId from src/utils/color-utils.ts: matches [a-z0-9-]+ and
    has length 1..50. -/
def validatePresetId (id : String) : Bool :=
  id.data.all slugChar && decide (id.length > 0) && decide (id.length ≤ 50)

/-- isPresetIdUnique from src/utils/color-utils.ts. -/
def isPresetIdUnique (id : String) (existingPresets : List CustomColorPreset)
    (excludeId : Option String) : Bool :=
  !(existingPresets.any fun preset =>
    preset.id == id &&
      (match excludeId with
       | none => true
       | some e => preset.id != e))

/-! ## Palette derivation (src/utils/preset-color-defaults.ts) -/

/-- The isLightBase test shared by getDefaultColorForKey and the CSS
    generator: base lightness above 50. -/
def isLightBase (palette : ColorPalette) : Bool := decide (palette.base.l > 50)

/-- Fixed syntax color defaults from getDefaultColorForKey. -/
def syntaxDefaults : List (String × String) :=
  [("red", "#e74c3c"), ("orange", "#e67e22"), ("yellow", "#f39c12"),
   ("green", "#27ae60"), ("cyan", "#16a085"), ("blue", "#3498db"),
   ("purple", "#9b59b6"), ("pink", "#e91e63")]

/-- Lightness for tx1 in getDefaultColorForKey: baseL − 87 on a light base,
    baseL + 77 on a dark one, clamped. -/
def defTx1L (palette : ColorPalette) : ℚ :=
  if isLightBase palette then max 0 (palette.base.l - 87) else min 100 (palette.base.l + 77)

/-- Lightness for tx2 in getDefaultColorForKey (offsets −53 / +45). -/
def defTx2L (palette : ColorPalette) : ℚ :=
  if isLightBase palette then max 0 (palette.base.l - 53) else min 100 (palette.base.l + 45)

/-- Lightness for tx3 in getDefaultColorForKey (offsets −78 / +30). -/
def defTx3L (palette : ColorPalette) : ℚ :=
  if isLightBase palette then max 0 (palette.base.l - 78) else min 100 (palette.base.l + 30)

/-- Lightness for tx4 in getDefaultColorForKey (offsets −48 / +40). -/
def defTx4L (palette : ColorPalette) : ℚ :=
  if isLightBase palette then max 0 (palette.base.l - 48) else min 100 (palette.base.l + 40)

/-- getDefaultColorForKey from src/utils/preset-color-defaults.ts. -/
def getDefaultColorForKey (key : String) (palette : ColorPalette) : String :=
  match syntaxDefaults.lookup key with
  | some hex => hex
  | none =>
    let baseH := palette.base.h
    let baseS := palette.base.s
    let baseL := palette.base.l
    let accentH := palette.accent.h
    match key with
    | "bg1" => hslToHex ⟨baseH, baseS, baseL⟩
    | "bg2" => hslToHex ⟨baseH, baseS,
        if isLightBase palette then max 0 (baseL - 5) else min 100 (baseL + 5)⟩
    | "bg3" => hslToHex ⟨baseH, baseS,
        if isLightBase palette then max 0 (baseL - 10) else min 100 (baseL + 10)⟩
    | "ui1" => hslToHex ⟨baseH, baseS,
        if isLightBase palette then max 0 (baseL - 15) else min 100 (baseL + 15)⟩
    | "ui2" => hslToHex ⟨baseH, baseS,
        if isLightBase palette then max 0 (baseL - 10) else min 100 (baseL + 10)⟩
    | "ui3" => hslToHex ⟨baseH, baseS,
        if isLightBase palette then max 0 (baseL - 5) else min 100 (baseL + 5)⟩
    | "tx1" => hslToHex ⟨baseH, max 0 (baseS - 10), defTx1L palette⟩
    | "tx2" => hslToHex ⟨baseH, max 0 (baseS - 20), defTx2L palette⟩
    | "tx3" => hslToHex ⟨baseH, max 0 (baseS - 10), defTx3L palette⟩
    | "tx4" => hslToHex ⟨baseH, max 0 (baseS - 10), defTx4L palette⟩
    | "hl1" => hslToHex ⟨accentH, 50, 40⟩
    | "hl2" => "#ffb150"
    | _ => "#000000"

/-! ## CSS generator (src/presets/preset-css-generator.ts) -/

/-- Template-literal rendering of a JS number: integer values print with no
    fractional part.  Non-integer rationals are rendered num/den here (JS
    would print a decimal expansion); they can only arise from non-integer
    preset input, which no claim exercises. -/
def numStr (q : ℚ) : String :=
  if q.den = 1 then toString q.num else toString q

/-- The recurring template shape hsl(h, s%, l%). -/
def hslFun (h s l : ℚ) : String :=
  "hsl(" ++ numStr h ++ ", " ++ numStr s ++ "%, " ++ numStr l ++ "%)"

namespace PresetCSSGenerator

/-- The bg1 value string of generateCSS. -/
def bg1 (p : ColorPalette) : String := hslFun p.base.h p.base.s p.base.l

/-- The bg2 value string of generateCSS (offset −5 / +5, clamped). -/
def bg2 (p : ColorPalette) : String :=
  hslFun p.base.h p.base.s
    (if isLightBase p then max 0 (p.base.l - 5) else min 100 (p.base.l + 5))

/-- The bg3 value string of generateCSS (offset −10 / +10, clamped). -/
def bg3 (p : ColorPalette) : String :=
  hslFun p.base.h p.base.s
    (if isLightBase p then max 0 (p.base.l - 10) else min 100 (p.base.l + 10))

/-- ui1L from generateCSS. -/
def ui1L (p : ColorPalette) : ℚ :=
  if isLightBase p then max 0 (p.base.l - 15) else min 100 (p.base.l + 15)

/-- ui2L from generateCSS. -/
def ui2L (p : ColorPalette) : ℚ :=
  if isLightBase p then max 0 (p.base.l - 10) else min 100 (p.base.l + 10)

/-- ui3L from generateCSS. -/
def ui3L (p : ColorPalette) : ℚ :=
  if isLightBase p then max 0 (p.base.l - 5) else min 100 (p.base.l + 5)

/-- The ui1 value string of generateCSS. -/
def ui1 (p : ColorPalette) : String := hslFun p.base.h p.base.s (ui1L p)

/-- The ui2 value string of generateCSS. -/
def ui2 (p : ColorPalette) : String := hslFun p.base.h p.base.s (ui2L p)

/-- The ui3 value string of generateCSS. -/
def ui3 (p : ColorPalette) : String := hslFun p.base.h p.base.s (ui3L p)

/-- tx1L from generateCSS: fixed 15 on a light base, 85 on a dark one. -/
def tx1L (p : ColorPalette) : ℚ := if isLightBase p then 15 else 85

/-- tx2L from generateCSS: fixed 25 / 75. -/
def tx2L (p : ColorPalette) : ℚ := if isLightBase p then 25 else 75

/-- tx3L from generateCSS: fixed 35 / 65. -/
def tx3L (p : ColorPalette) : ℚ := if isLightBase p then 35 else 65

/-- tx4L from generateCSS: fixed 30 / 70. -/
def tx4L (p : ColorPalette) : ℚ := if isLightBase p then 30 else 70

/-- The tx1 value string of generateCSS. -/
def tx1 (p : ColorPalette) : String :=
  hslFun p.base.h (max 0 (p.base.s - 10)) (tx1L p)

/-- The tx2 value string of generateCSS. -/
def tx2 (p : ColorPalette) : String :=
  hslFun p.base.h (max 0 (p.base.s - 20)) (tx2L p)

/-- The tx3 value string of generateCSS. -/
def tx3 (p : ColorPalette) : String :=
  hslFun p.base.h (max 0 (p.base.s - 10)) (tx3L p)

/-- The tx4 value string of generateCSS. -/
def tx4 (p : ColorPalette) : String :=
  hslFun p.base.h (max 0 (p.base.s - 10)) (tx4L p)

/-- The hl1 value string of generateCSS. -/
def hl1 (p : ColorPalette) : String :=
  "hsla(" ++ numStr p.accent.h ++ ", 50%, 40%, 30%)"

/-- The hl2 value string of generateCSS. -/
def hl2 : String := "rgba(255, 177, 80, 0.3)"

/-- The sp1 value string of generateCSS: mode-dependent, not
    base-dependent. -/
def sp1 (mode : OxMode) : String := if mode = OxMode.light then "white" else "black"

/-- The local hslToRgb helper inside generateCSS.  Its hue2rgb is textually
    identical to the one in src/utils/color-utils.ts, so the shared
    embedding hue2rgb is reused. -/
def hslToRgb (h s l : ℚ) : ℚ × ℚ × ℚ :=
  let h1 := h / 360
  let s1 := s / 100
  let l1 := l / 100
  if s1 = 0 then (l1, l1, l1)
  else
    let q := if l1 < 1/2 then l1 * (1 + s1) else l1 + s1 - l1 * s1
    let p := 2 * l1 - q
    (hue2rgb p q (h1 + 1/3), hue2rgb p q h1, hue2rgb p q (h1 - 1/3))

/-- Per-channel sRGB linearization from the luminance computation in
    generateCSS: c ≤ 0.03928 gives c / 12.92, otherwise
    ((c + 0.055) / 1.055) ^ 2.4. -/
noncomputable def linearize (c : ℚ) : ℝ :=
  if c ≤ 0.03928 then (c : ℝ) / 12.92
  else (((c : ℝ) + 0.055) / 1.055) ^ (2.4 : ℝ)

/-- WCAG relative luminance of the accent color, as computed in
    generateCSS. -/
noncomputable def luminance (p : ColorPalette) : ℝ :=
  let rgb := hslToRgb p.accent.h p.accent.s p.accent.l
  0.2126 * linearize rgb.1 + 0.7152 * linearize rgb.2.1 + 0.0722 * linearize rgb.2.2

open Classical in
/-- The textOnAccent value of generateCSS: black when luminance exceeds
    0.5, white otherwise. -/
noncomputable def textOnAccent (p : ColorPalette) : String :=
  if luminance p > 1/2 then "black" else "white"

/-- extendedS from generateCSS. -/
def extendedS (p : ColorPalette) : ℚ := p.accent.s

/-- extendedL from generateCSS. -/
def extendedL (p : ColorPalette) : ℚ := if isLightBase p then 55 else 65

/-- The override key list of generateCSS, in emission order. -/
def overrideKeys : List String :=
  ["bg1", "bg2", "bg3", "ui1", "ui2", "ui3",
   "tx1", "tx2", "tx3", "tx4", "hl1", "hl2",
   "red", "orange", "yellow", "green", "cyan", "blue", "purple", "pink"]

/-- Indexing palette.colors by a key from the override list. -/
def getOverride (c : ColorOverrides) (key : String) : Option String :=
  match key with
  | "bg1" => c.bg1
  | "bg2" => c.bg2
  | "bg3" => c.bg3
  | "ui1" => c.ui1
  | "ui2" => c.ui2
  | "ui3" => c.ui3
  | "tx1" => c.tx1
  | "tx2" => c.tx2
  | "tx3" => c.tx3
  | "tx4" => c.tx4
  | "hl1" => c.hl1
  | "hl2" => c.hl2
  | "red" => c.red
  | "orange" => c.orange
  | "yellow" => c.yellow
  | "green" => c.green
  | "cyan" => c.cyan
  | "blue" => c.blue
  | "purple" => c.purple
  | "pink" => c.pink
  | _ => none

/-- Custom property name emitted for an override key: the named Oxygen
    variable for the twelve core tokens, a color- property otherwise. -/
def overrideProp (key : String) : String :=
  match key with
  | "bg1" | "bg2" | "bg3" | "ui1" | "ui2" | "ui3"
  | "tx1" | "tx2" | "tx3" | "tx4" | "hl1" | "hl2" => "--" ++ key
  | _ => "--color-" ++ key

end PresetCSSGenerator

/-- One emitted piece of generateCSS: either a custom-property declaration
    line (the css += statements of the form two spaces, name, colon, value,
    semicolon, newline) or raw text (the rule opener, blank separator lines
    and the closing brace). -/
inductive CSSItem where
  | raw (s : String)
  | decl (prop value : String)
  deriving DecidableEq, Repr

/-- Text of one emitted piece. -/
def renderItem : CSSItem → String
  | CSSItem.raw s => s
  | CSSItem.decl prop value => "  " ++ prop ++ ": " ++ value ++ ";\n"

/-- Property name of an emitted piece, when it is a declaration. -/
def itemProp : CSSItem → Option String
  | CSSItem.raw _ => none
  | CSSItem.decl prop _ => some prop

/-- Concatenation of emitted pieces, in order (the css accumulator). -/
def concatPieces : List CSSItem → String
  | [] => ""
  | item :: rest => renderItem item ++ concatPieces rest

namespace PresetCSSGenerator

/-- Emission for one override key inside the forEach of generateCSS: no
    output when the key is absent from palette.colors or its value is falsy
    (empty), otherwise one declaration whose property is given by the
    switch. -/
def overrideItem (c : ColorOverrides) (key : String) : Option CSSItem :=
  match getOverride c key with
  | some color => if color = "" then none else some (CSSItem.decl (overrideProp key) color)
  | none => none

/-- The override block of generateCSS: the forEach over overrideKeys,
    guarded by palette.colors. -/
def overrideItems (colors : Option ColorOverrides) : List CSSItem :=
  match colors with
  | none => []
  | some c => overrideKeys.filterMap (overrideItem c)

/-- The optional colorful-frame block of generateCSS. -/
def frameItems (p : ColorPalette) : List CSSItem :=
  match p.frameLightnessOffset with
  | some off =>
    [CSSItem.decl "--frame-background-l" (numStr (p.accent.l + off) ++ "%"), CSSItem.raw "\n"]
  | none => []

/-- Palette selection at the top of generateCSS: light palette in light
    mode, dark palette otherwise. -/
def paletteOf (preset : CustomColorPreset) (mode : OxMode) : ColorPalette :=
  if mode = OxMode.light then preset.light else preset.dark

/-- The unconditional emitted pieces of generateCSS, before the optional
    frame and override blocks, one list entry per css += statement, in
    source order. -/
noncomputable def headItems (preset : CustomColorPreset) (mode : OxMode)
    (palette : ColorPalette) : List CSSItem :=
  let themeClass := if mode = OxMode.light then "theme-light" else "theme-dark"
  let className := "minimal-custom-" ++ preset.id
  [CSSItem.raw ("." ++ themeClass ++ "." ++ className ++ " \x7b\n"),
   CSSItem.decl "--base-h" (numStr palette.base.h),
   CSSItem.decl "--base-s" (numStr palette.base.s ++ "%"),
   CSSItem.decl "--base-l" (numStr palette.base.l ++ "%"),
   CSSItem.raw "\n",
   CSSItem.decl "--accent-h" (numStr palette.accent.h),
   CSSItem.decl "--accent-s" (numStr palette.accent.s ++ "%"),
   CSSItem.decl "--accent-l" (numStr palette.accent.l ++ "%"),
   CSSItem.raw "\n",
   CSSItem.decl "--bg1" (bg1 palette),
   CSSItem.decl "--bg2" (bg2 palette),
   CSSItem.decl "--bg-tab" (bg2 palette),
   CSSItem.decl "--bg3" (bg3 palette),
   CSSItem.raw "\n",
   CSSItem.decl "--ui1" (ui1 palette),
   CSSItem.decl "--ui2" (ui2 palette),
   CSSItem.decl "--ui3" (ui3 palette),
   CSSItem.raw "\n",
   CSSItem.decl "--tx1" (tx1 palette),
   CSSItem.decl "--tx2" (tx2 palette),
   CSSItem.decl "--tx3" (tx3 palette),
   CSSItem.decl "--tx4" (tx4 palette),
   CSSItem.raw "\n",
   CSSItem.decl "--hl1" (hl1 palette),
   CSSItem.decl "--hl2" hl2,
   CSSItem.raw "\n",
   CSSItem.decl "--sp1" (sp1 mode),
   CSSItem.raw "\n",
   CSSItem.decl "--text-on-accent" (textOnAccent palette),
   CSSItem.raw "\n",
   CSSItem.decl "--color-red" (hslFun 0 (extendedS palette) (extendedL palette)),
   CSSItem.decl "--color-orange" (hslFun 25 (extendedS palette) (extendedL palette)),
   CSSItem.decl "--color-yellow" (hslFun 50 (extendedS palette) (extendedL palette)),
   CSSItem.decl "--color-green" (hslFun 130 (extendedS palette) (extendedL palette)),
   CSSItem.decl "--color-cyan" (hslFun 180 (extendedS palette) (extendedL palette)),
   CSSItem.decl "--color-blue" (hslFun 220 (extendedS palette) (extendedL palette)),
   CSSItem.decl "--color-purple" (hslFun 280 (extendedS palette) (extendedL palette)),
   CSSItem.decl "--color-pink" (hslFun 330 (extendedS palette) (extendedL palette)),
   CSSItem.raw "\n"]

/-- The emitted pieces of PresetCSSGenerator.generateCSS
    (src/presets/preset-css-generator.ts), in source order. -/
noncomputable def cssItems (preset : CustomColorPreset) (mode : OxMode) : List CSSItem :=
  let palette := paletteOf preset mode
  headItems preset mode palette ++
  frameItems palette ++
  overrideItems palette.colors ++
  [CSSItem.raw "\x7d\n"]

/-- PresetCSSGenerator.generateCSS: the concatenated emission. -/
noncomputable def generateCSS (preset : CustomColorPreset) (mode : OxMode) : String :=
  concatPieces (cssItems preset mode)

end PresetCSSGenerator

/-- Splitting the concatenation of pieces at one item. -/
theorem concatPieces_append (l1 l2 : List CSSItem) :
    concatPieces (l1 ++ l2) = concatPieces l1 ++ concatPieces l2 := by
  induction l1 with
  | nil => simp [concatPieces]
  | cons x xs ih => simp [concatPieces, ih, String.append_assoc]

/-- Splitting the concatenation of pieces at one distinguished item. -/
theorem concatPieces_split (l1 l2 : List CSSItem) (x : CSSItem) :
    concatPieces (l1 ++ x :: l2) =
      concatPieces l1 ++ renderItem x ++ concatPieces l2 := by
  rw [concatPieces_append]
  simp [concatPieces, String.append_assoc]

/-! ### Substring occurrence -/

/-- The pattern is an initial run of the text. -/
def runAt : List Char → List Char → Bool
  | [], _ => true
  | _ :: _, [] => false
  | p :: ps, c :: cs => p == c && runAt ps cs

/-- The pattern occurs contiguously somewhere in the text. -/
def hasRun (pat : List Char) : List Char → Bool
  | [] => runAt pat []
  | c :: cs => runAt pat (c :: cs) || hasRun pat cs

/-- Substring test for strings. -/
def strContains (s pat : String) : Bool := hasRun pat.data s.data

/-- A pattern is an initial run of itself extended to the right. -/
theorem runAt_self_append (pat r : List Char) : runAt pat (pat ++ r) = true := by
  induction pat with
  | nil => rfl
  | cons p ps ih => simp [runAt, ih]

/-- An occurrence survives extension of the text to the left. -/
theorem hasRun_append_left (l m pat : List Char) (h : hasRun pat m = true) :
    hasRun pat (l ++ m) = true := by
  induction l with
  | nil => simpa using h
  | cons c cs ih => simp [hasRun, ih]

/-- An occurrence at the front of the text. -/
theorem hasRun_self_append (pat r : List Char) : hasRun pat (pat ++ r) = true := by
  cases pat with
  | nil =>
    cases r with
    | nil => rfl
    | cons c cs => simp [hasRun, runAt]
  | cons p ps =>
    simp only [List.cons_append, hasRun, Bool.or_eq_true]
    exact Or.inl (runAt_self_append (p :: ps) r)

/-- Exhibiting an explicit decomposition certifies the substring test. -/
theorem strContains_of_eq_append (s pre pat post : String)
    (h : s = pre ++ pat ++ post) : strContains s pat = true := by
  subst h
  simp only [strContains, String.data_append]
  rw [List.append_assoc]
  exact hasRun_append_left _ _ _ (hasRun_self_append _ _)

/-- A pattern occurs in a longer string obtained by appending on the
    left. -/
theorem strContains_append_left (a b pat : String) (h : strContains b pat = true) :
    strContains (a ++ b) pat = true := by
  simp only [strContains, String.data_append]
  exact hasRun_append_left _ _ _ h

/-- The rendering of any emitted piece occurs in the concatenated
    emission. -/
theorem strContains_concat_of_mem (x : CSSItem) (items : List CSSItem)
    (hx : x ∈ items) : strContains (concatPieces items) (renderItem x) = true := by
  induction items with
  | nil => cases hx
  | cons a l ih =>
    rcases List.mem_cons.mp hx with h | h
    · subst h
      exact strContains_of_eq_append _ "" _ (concatPieces l)
        (by rw [String.empty_append]; rfl)
    · exact strContains_append_left _ _ _ (ih h)

set_option maxRecDepth 100000

/-! ## Claim C1 -/

/-- A palette with a light, fully desaturated white base, used to separate
    the two tx derivations. -/
def palC1 : ColorPalette := { base := ⟨0, 0, 100⟩, accent := ⟨0, 0, 0⟩ }

/-- A preset carrying palC1 in both modes. -/
def presetC1 : CustomColorPreset :=
  { id := "probe", name := "Probe", light := palC1, dark := palC1 }

/-- C1 counterexample: for the palette with base hsl(0, 0%, 100%), the CSS
    generator emits tx1 with lightness 15 (hsl(0, 0%, 15%) appears in the
    generated stylesheet) while getDefaultColorForKey derives tx1 with
    lightness clamp(baseL − 87) = 13 (the hex #212121, i.e. hsl(0, 0%, 13%)).
    The two derivations are not in lockstep. -/
theorem C1_counterexample :
    PresetCSSGenerator.tx1L palC1 = 15 ∧
    defTx1L palC1 = 13 ∧
    (15 : ℚ) ≠ 13 ∧
    PresetCSSGenerator.tx1 palC1 = "hsl(0, 0%, 15%)" ∧
    strContains (PresetCSSGenerator.generateCSS presetC1 OxMode.light)
      "  --tx1: hsl(0, 0%, 15%);\n" = true ∧
    getDefaultColorForKey "tx1" palC1 = "#212121" ∧
    hexToHSL "#212121" = ⟨0, 0, 13⟩ := by
  refine ⟨by with_unfolding_all decide, by with_unfolding_all decide,
    by norm_num, by with_unfolding_all decide, ?_,
    by with_unfolding_all decide, by with_unfolding_all decide⟩
  have h1 : PresetCSSGenerator.tx1 (PresetCSSGenerator.paletteOf presetC1 OxMode.light) =
      "hsl(0, 0%, 15%)" := by with_unfolding_all decide
  have hx : CSSItem.decl "--tx1" "hsl(0, 0%, 15%)" ∈
      PresetCSSGenerator.cssItems presetC1 OxMode.light := by
    simp [PresetCSSGenerator.cssItems, PresetCSSGenerator.headItems, h1]
  have h2 := strContains_concat_of_mem _ _ hx
  have h3 : renderItem (CSSItem.decl "--tx1" "hsl(0, 0%, 15%)") =
      "  --tx1: hsl(0, 0%, 15%);\n" := by decide
  rw [h3] at h2
  exact h2

/-- C1 amended: the generator's tx1..tx4 hsl() strings share the hue
    (baseH) and saturations (baseS−10, −20, −10, −10, clamped at 0) with
    getDefaultColorForKey, but use fixed lightness values 15/85, 25/75,
    35/65, 30/70 chosen by base polarity instead of the derivation's
    clamped offsets −87/+77, −53/+45, −78/+30, −48/+40; each generated
    stylesheet contains the fixed-lightness declarations, so the two
    derivations agree only where clamping happens to make the offset
    formulas produce those constants. -/
theorem C1_amended (preset : CustomColorPreset) (mode : OxMode) :
    let palette := PresetCSSGenerator.paletteOf preset mode
    (PresetCSSGenerator.tx1 palette =
      hslFun palette.base.h (max 0 (palette.base.s - 10))
        (if palette.base.l > 50 then 15 else 85)) ∧
    (PresetCSSGenerator.tx2 palette =
      hslFun palette.base.h (max 0 (palette.base.s - 20))
        (if palette.base.l > 50 then 25 else 75)) ∧
    (PresetCSSGenerator.tx3 palette =
      hslFun palette.base.h (max 0 (palette.base.s - 10))
        (if palette.base.l > 50 then 35 else 65)) ∧
    (PresetCSSGenerator.tx4 palette =
      hslFun palette.base.h (max 0 (palette.base.s - 10))
        (if palette.base.l > 50 then 30 else 70)) ∧
    (getDefaultColorForKey "tx1" palette =
      hslToHex ⟨palette.base.h, max 0 (palette.base.s - 10), defTx1L palette⟩) ∧
    (getDefaultColorForKey "tx2" palette =
      hslToHex ⟨palette.base.h, max 0 (palette.base.s - 20), defTx2L palette⟩) ∧
    (getDefaultColorForKey "tx3" palette =
      hslToHex ⟨palette.base.h, max 0 (palette.base.s - 10), defTx3L palette⟩) ∧
    (getDefaultColorForKey "tx4" palette =
      hslToHex ⟨palette.base.h, max 0 (palette.base.s - 10), defTx4L palette⟩) ∧
    strContains (PresetCSSGenerator.generateCSS preset mode)
      (renderItem (CSSItem.decl "--tx1" (PresetCSSGenerator.tx1 palette))) = true ∧
    strContains (PresetCSSGenerator.generateCSS preset mode)
      (renderItem (CSSItem.decl "--tx2" (PresetCSSGenerator.tx2 palette))) = true ∧
    strContains (PresetCSSGenerator.generateCSS preset mode)
      (renderItem (CSSItem.decl "--tx3" (PresetCSSGenerator.tx3 palette))) = true ∧
    strContains (PresetCSSGenerator.generateCSS preset mode)
      (renderItem (CSSItem.decl "--tx4" (PresetCSSGenerator.tx4 palette))) = true := by
  intro palette
  have hmem : ∀ v : String, ∀ pr : String,
      CSSItem.decl pr v ∈ PresetCSSGenerator.headItems preset mode palette →
      strContains (PresetCSSGenerator.generateCSS preset mode)
        (renderItem (CSSItem.decl pr v)) = true := by
    intro v pr hv
    exact strContains_concat_of_mem _ _
      (by simp only [PresetCSSGenerator.cssItems, List.mem_append]
          exact Or.inl (Or.inl (Or.inl hv)))
  have hcase : ∀ a b : ℚ, (if isLightBase palette then a else b) =
      (if palette.base.l > 50 then a else b) := by
    intro a b
    by_cases h : palette.base.l > 50 <;> simp [isLightBase, h]
  refine ⟨?_, ?_, ?_, ?_, ?_, ?_, ?_, ?_, ?_, ?_, ?_, ?_⟩
  · simp [PresetCSSGenerator.tx1, PresetCSSGenerator.tx1L, hcase]
  · simp [PresetCSSGenerator.tx2, PresetCSSGenerator.tx2L, hcase]
  · simp [PresetCSSGenerator.tx3, PresetCSSGenerator.tx3L, hcase]
  · simp [PresetCSSGenerator.tx4, PresetCSSGenerator.tx4L, hcase]
  · rfl
  · rfl
  · rfl
  · rfl
  · exact hmem _ _ (by simp [PresetCSSGenerator.headItems])
  · exact hmem _ _ (by simp [PresetCSSGenerator.headItems])
  · exact hmem _ _ (by simp [PresetCSSGenerator.headItems])
  · exact hmem _ _ (by simp [PresetCSSGenerator.headItems])

/-! ## Luminance facts (claims C3 and C4) -/

/-- Comparison of a real 2.4-power against a rational bound via integer
    powers: x ^ 2.4 < u whenever x ^ 12 < u ^ 5. -/
theorem rpow24_lt (x u : ℝ) (hx : 0 ≤ x) (hu : 0 ≤ u)
    (h : x ^ (12 : ℕ) < u ^ (5 : ℕ)) : x ^ (2.4 : ℝ) < u := by
  have h5 : (x ^ (2.4 : ℝ)) ^ (5 : ℕ) = x ^ (12 : ℕ) := by
    rw [← Real.rpow_natCast (x ^ (2.4 : ℝ)) 5, ← Real.rpow_mul hx]
    rw [show ((2.4 : ℝ) * (5 : ℕ)) = ((12 : ℕ) : ℝ) by norm_num, Real.rpow_natCast]
  exact lt_of_pow_lt_pow_left₀ 5 hu (h5 ▸ h)

/-- The textOnAccent branch, spelled out: white exactly on luminance at
    most one half, black exactly above it. -/
theorem textOnAccent_cases (p : ColorPalette) :
    (PresetCSSGenerator.textOnAccent p = "white" ↔ PresetCSSGenerator.luminance p ≤ 1/2) ∧
    (PresetCSSGenerator.textOnAccent p = "black" ↔ 1/2 < PresetCSSGenerator.luminance p) := by
  have hbw : ¬(("black" : String) = "white") := by decide
  have hwb : ¬(("white" : String) = "black") := by decide
  by_cases h : PresetCSSGenerator.luminance p > 1/2
  · have e : PresetCSSGenerator.textOnAccent p = "black" := by
      unfold PresetCSSGenerator.textOnAccent
      exact if_pos h
    rw [e]
    exact ⟨iff_of_false hbw (not_le.mpr h), iff_of_true rfl h⟩
  · have e : PresetCSSGenerator.textOnAccent p = "white" := by
      unfold PresetCSSGenerator.textOnAccent
      exact if_neg h
    rw [e]
    exact ⟨iff_of_true rfl (not_lt.mp h), iff_of_false hwb h⟩

/-- The sunset preset of the end-to-end scenario in the spec. -/
def sunsetPreset : CustomColorPreset :=
  { id := "sunset", name := "Sunset",
    light := { base := ⟨20, 30, 95⟩, accent := ⟨10, 80, 55⟩ },
    dark := { base := ⟨220, 15, 12⟩, accent := ⟨10, 80, 55⟩ } }

/-- The WCAG relative luminance of the sunset accent hsl(10, 80%, 55%) is
    at most one half (it is about 0.23), whatever the rest of the palette
    is. -/
theorem sunsetAccent_lum_le (p : ColorPalette) (hacc : p.accent = ⟨10, 80, 55⟩) :
    PresetCSSGenerator.luminance p ≤ 1/2 := by
  have hrgb : PresetCSSGenerator.hslToRgb 10 80 55 = (91/100, 31/100, 19/100) := by
    with_unfolding_all decide
  have hlum : PresetCSSGenerator.luminance p =
      0.2126 * PresetCSSGenerator.linearize (91/100) +
      0.7152 * PresetCSSGenerator.linearize (31/100) +
      0.0722 * PresetCSSGenerator.linearize (19/100) := by
    simp only [PresetCSSGenerator.luminance, hacc]
    rw [hrgb]
  have h1 : PresetCSSGenerator.linearize (91/100) < 81/100 := by
    rw [PresetCSSGenerator.linearize, if_neg (by norm_num)]
    rw [show ((((91:ℚ)/100 : ℚ) : ℝ) + 0.055) / 1.055 = 193/211 by push_cast; norm_num]
    exact rpow24_lt _ _ (by norm_num) (by norm_num) (by norm_num)
  have h2 : PresetCSSGenerator.linearize (31/100) < 8/100 := by
    rw [PresetCSSGenerator.linearize, if_neg (by norm_num)]
    rw [show ((((31:ℚ)/100 : ℚ) : ℝ) + 0.055) / 1.055 = 73/211 by push_cast; norm_num]
    exact rpow24_lt _ _ (by norm_num) (by norm_num) (by norm_num)
  have h3 : PresetCSSGenerator.linearize (19/100) < 31/1000 := by
    rw [PresetCSSGenerator.linearize, if_neg (by norm_num)]
    rw [show ((((19:ℚ)/100 : ℚ) : ℝ) + 0.055) / 1.055 = 49/211 by push_cast; norm_num]
    exact rpow24_lt _ _ (by norm_num) (by norm_num) (by norm_num)
  rw [hlum]
  nlinarith [h1, h2, h3]

/-- Any palette with the sunset accent gets white text on accent. -/
theorem sunsetAccent_toa (p : ColorPalette) (hacc : p.accent = ⟨10, 80, 55⟩) :
    PresetCSSGenerator.textOnAccent p = "white" := by
  unfold PresetCSSGenerator.textOnAccent
  exact if_neg (not_lt.mpr (sunsetAccent_lum_le p hacc))

/-- The luminance bound for the sunset dark palette itself. -/
theorem sunset_lum_le :
    PresetCSSGenerator.luminance (PresetCSSGenerator.paletteOf sunsetPreset OxMode.dark) ≤
      1/2 :=
  sunsetAccent_lum_le _ rfl

/-- The sunset dark palette gets white text on accent. -/
theorem sunset_toa :
    PresetCSSGenerator.textOnAccent (PresetCSSGenerator.paletteOf sunsetPreset OxMode.dark) =
      "white" :=
  sunsetAccent_toa _ rfl

namespace PresetCSSGenerator

/-- The emitted pieces that precede the text-on-accent declaration. -/
def headItemsBeforeToa (preset : CustomColorPreset) (mode : OxMode)
    (palette : ColorPalette) : List CSSItem :=
  let themeClass := if mode = OxMode.light then "theme-light" else "theme-dark"
  let className := "minimal-custom-" ++ preset.id
  [CSSItem.raw ("." ++ themeClass ++ "." ++ className ++ " \x7b\n"),
   CSSItem.decl "--base-h" (numStr palette.base.h),
   CSSItem.decl "--base-s" (numStr palette.base.s ++ "%"),
   CSSItem.decl "--base-l" (numStr palette.base.l ++ "%"),
   CSSItem.raw "\n",
   CSSItem.decl "--accent-h" (numStr palette.accent.h),
   CSSItem.decl "--accent-s" (numStr palette.accent.s ++ "%"),
   CSSItem.decl "--accent-l" (numStr palette.accent.l ++ "%"),
   CSSItem.raw "\n",
   CSSItem.decl "--bg1" (bg1 palette),
   CSSItem.decl "--bg2" (bg2 palette),
   CSSItem.decl "--bg-tab" (bg2 palette),
   CSSItem.decl "--bg3" (bg3 palette),
   CSSItem.raw "\n",
   CSSItem.decl "--ui1" (ui1 palette),
   CSSItem.decl "--ui2" (ui2 palette),
   CSSItem.decl "--ui3" (ui3 palette),
   CSSItem.raw "\n",
   CSSItem.decl "--tx1" (tx1 palette),
   CSSItem.decl "--tx2" (tx2 palette),
   CSSItem.decl "--tx3" (tx3 palette),
   CSSItem.decl "--tx4" (tx4 palette),
   CSSItem.raw "\n",
   CSSItem.decl "--hl1" (hl1 palette),
   CSSItem.decl "--hl2" hl2,
   CSSItem.raw "\n",
   CSSItem.decl "--sp1" (sp1 mode),
   CSSItem.raw "\n"]

/-- The emitted pieces that follow the text-on-accent declaration, up to
    the optional blocks. -/
def headItemsAfterToa (palette : ColorPalette) : List CSSItem :=
  [CSSItem.raw "\n",
   CSSItem.decl "--color-red" (hslFun 0 (extendedS palette) (extendedL palette)),
   CSSItem.decl "--color-orange" (hslFun 25 (extendedS palette) (extendedL palette)),
   CSSItem.decl "--color-yellow" (hslFun 50 (extendedS palette) (extendedL palette)),
   CSSItem.decl "--color-green" (hslFun 130 (extendedS palette) (extendedL palette)),
   CSSItem.decl "--color-cyan" (hslFun 180 (extendedS palette) (extendedL palette)),
   CSSItem.decl "--color-blue" (hslFun 220 (extendedS palette) (extendedL palette)),
   CSSItem.decl "--color-purple" (hslFun 280 (extendedS palette) (extendedL palette)),
   CSSItem.decl "--color-pink" (hslFun 330 (extendedS palette) (extendedL palette)),
   CSSItem.raw "\n"]

/-- headItems split at the text-on-accent declaration. -/
theorem headItems_toa_split (preset : CustomColorPreset) (mode : OxMode)
    (palette : ColorPalette) :
    headItems preset mode palette =
      headItemsBeforeToa preset mode palette ++
      CSSItem.decl "--text-on-accent" (textOnAccent palette) ::
      headItemsAfterToa palette := rfl

/-- generateCSS split at the text-on-accent declaration. -/
theorem generateCSS_toa_split (preset : CustomColorPreset) (mode : OxMode) :
    generateCSS preset mode =
      concatPieces (headItemsBeforeToa preset mode (paletteOf preset mode)) ++
      renderItem (CSSItem.decl "--text-on-accent" (textOnAccent (paletteOf preset mode))) ++
      concatPieces (headItemsAfterToa (paletteOf preset mode) ++
        frameItems (paletteOf preset mode) ++
        overrideItems (paletteOf preset mode).colors ++ [CSSItem.raw "\x7d\n"]) := by
  show concatPieces (cssItems preset mode) = _
  rw [show cssItems preset mode =
        (headItemsBeforeToa preset mode (paletteOf preset mode) ++
          CSSItem.decl "--text-on-accent" (textOnAccent (paletteOf preset mode)) ::
          headItemsAfterToa (paletteOf preset mode)) ++
        frameItems (paletteOf preset mode) ++
        overrideItems (paletteOf preset mode).colors ++ [CSSItem.raw "\x7d\n"] from rfl]
  rw [show (headItemsBeforeToa preset mode (paletteOf preset mode) ++
          CSSItem.decl "--text-on-accent" (textOnAccent (paletteOf preset mode)) ::
          headItemsAfterToa (paletteOf preset mode)) ++
        frameItems (paletteOf preset mode) ++
        overrideItems (paletteOf preset mode).colors ++ [CSSItem.raw "\x7d\n"] =
        headItemsBeforeToa preset mode (paletteOf preset mode) ++
        CSSItem.decl "--text-on-accent" (textOnAccent (paletteOf preset mode)) ::
        (headItemsAfterToa (paletteOf preset mode) ++
          frameItems (paletteOf preset mode) ++
          overrideItems (paletteOf preset mode).colors ++ [CSSItem.raw "\x7d\n"]) by
      simp [List.append_assoc]]
  rw [concatPieces_split]

end PresetCSSGenerator

/-! ## Claim C3 -/

/-- C3: for every preset and mode, generateCSS emits a text-on-accent
    declaration whose value is white exactly when the WCAG relative
    luminance of the selected palette's accent (HSL to RGB, sRGB
    linearization, weights 0.2126/0.7152/0.0722) is at most 0.5, and black
    exactly when that luminance exceeds 0.5. -/
theorem C3_theorem (preset : CustomColorPreset) (mode : OxMode) :
    let palette := PresetCSSGenerator.paletteOf preset mode
    (CSSItem.decl "--text-on-accent" (PresetCSSGenerator.textOnAccent palette) ∈
      PresetCSSGenerator.cssItems preset mode) ∧
    strContains (PresetCSSGenerator.generateCSS preset mode)
      (renderItem (CSSItem.decl "--text-on-accent"
        (PresetCSSGenerator.textOnAccent palette))) = true ∧
    (PresetCSSGenerator.textOnAccent palette = "white" ↔
      PresetCSSGenerator.luminance palette ≤ 1/2) ∧
    (PresetCSSGenerator.textOnAccent palette = "black" ↔
      1/2 < PresetCSSGenerator.luminance palette) := by
  intro palette
  have hmem : CSSItem.decl "--text-on-accent" (PresetCSSGenerator.textOnAccent palette) ∈
      PresetCSSGenerator.cssItems preset mode := by
    simp [PresetCSSGenerator.cssItems, PresetCSSGenerator.headItems]
  exact ⟨hmem, strContains_concat_of_mem _ _ hmem,
    (textOnAccent_cases palette).1, (textOnAccent_cases palette).2⟩

/-! ## Claim C4 -/

/-- C4 counterexample: for the sunset preset in dark mode the accent
    hsl(10, 80%, 55%) has relative luminance about 0.23, at most 0.5, so
    the generated CSS declares text-on-accent white; it nowhere declares
    text-on-accent black, contradicting the claimed output. -/
theorem C4_counterexample :
    PresetCSSGenerator.textOnAccent (PresetCSSGenerator.paletteOf sunsetPreset OxMode.dark) =
      "white" ∧
    strContains (PresetCSSGenerator.generateCSS sunsetPreset OxMode.dark)
      "  --text-on-accent: black;\n" = false ∧
    strContains (PresetCSSGenerator.generateCSS sunsetPreset OxMode.dark)
      "  --text-on-accent: white;\n" = true ∧
    PresetCSSGenerator.luminance (PresetCSSGenerator.paletteOf sunsetPreset OxMode.dark) ≤
      1/2 := by
  refine ⟨sunset_toa, ?_, ?_, sunset_lum_le⟩ <;>
  · rw [PresetCSSGenerator.generateCSS_toa_split, sunset_toa]
    with_unfolding_all decide

/-- C4 amended: generateCSS on the sunset preset in dark mode returns a
    single rule block scoped .theme-dark.minimal-custom-sunset containing
    the declaration bg1 hsl(220, 15%, 12%), the literal accent hue 10 in
    the accent-h declaration, and text-on-accent white (not black, since
    the accent luminance is at most 0.5). -/
theorem C4_amended :
    ((PresetCSSGenerator.generateCSS sunsetPreset OxMode.dark).data.take
      ".theme-dark.minimal-custom-sunset \x7b\n".length =
      ".theme-dark.minimal-custom-sunset \x7b\n".data) ∧
    strContains (PresetCSSGenerator.generateCSS sunsetPreset OxMode.dark)
      "  --bg1: hsl(220, 15%, 12%);\n" = true ∧
    strContains (PresetCSSGenerator.generateCSS sunsetPreset OxMode.dark)
      "  --accent-h: 10;\n" = true ∧
    strContains (PresetCSSGenerator.generateCSS sunsetPreset OxMode.dark)
      "  --text-on-accent: white;\n" = true ∧
    (PresetCSSGenerator.generateCSS sunsetPreset OxMode.dark).data.count '\x7b' = 1 ∧
    (PresetCSSGenerator.generateCSS sunsetPreset OxMode.dark).data.count '\x7d' = 1 := by
  rw [PresetCSSGenerator.generateCSS_toa_split, sunset_toa]
  refine ⟨?_, ?_, ?_, ?_, ?_, ?_⟩ <;> with_unfolding_all decide

/-! ## Claim C9 -/

open PresetCSSGenerator in
/-- The value of the computed-default declaration that generateCSS emits
    for each override key, read off the head emission. -/
noncomputable def computedDefaultValue (key : String) (palette : ColorPalette) : String :=
  match key with
  | "bg1" => bg1 palette
  | "bg2" => bg2 palette
  | "bg3" => bg3 palette
  | "ui1" => ui1 palette
  | "ui2" => ui2 palette
  | "ui3" => ui3 palette
  | "tx1" => tx1 palette
  | "tx2" => tx2 palette
  | "tx3" => tx3 palette
  | "tx4" => tx4 palette
  | "hl1" => hl1 palette
  | "hl2" => hl2
  | "red" => hslFun 0 (extendedS palette) (extendedL palette)
  | "orange" => hslFun 25 (extendedS palette) (extendedL palette)
  | "yellow" => hslFun 50 (extendedS palette) (extendedL palette)
  | "green" => hslFun 130 (extendedS palette) (extendedL palette)
  | "cyan" => hslFun 180 (extendedS palette) (extendedL palette)
  | "blue" => hslFun 220 (extendedS palette) (extendedL palette)
  | "purple" => hslFun 280 (extendedS palette) (extendedL palette)
  | "pink" => hslFun 330 (extendedS palette) (extendedL palette)
  | _ => ""

open PresetCSSGenerator in
/-- Every override key has its computed-default declaration among the head
    pieces of generateCSS. -/
theorem computedDefault_mem_head (preset : CustomColorPreset) (mode : OxMode)
    (palette : ColorPalette) :
    ∀ key ∈ overrideKeys,
      CSSItem.decl (overrideProp key) (computedDefaultValue key palette) ∈
        headItems preset mode palette := by
  intro key hkey
  fin_cases hkey <;>
    simp [headItems, computedDefaultValue, overrideProp, overrideKeys]

open PresetCSSGenerator in
/-- Every item of the override block carries the property of the override
    key that produced it. -/
theorem overrideItem_prop (c : ColorOverrides) (k : String) (item : CSSItem)
    (h : overrideItem c k = some item) :
    itemProp item = some (overrideProp k) := by
  unfold overrideItem at h
  cases hgo : getOverride c k with
  | none => rw [hgo] at h; cases h
  | some color =>
    rw [hgo] at h
    have h2 : (if color = "" then none
        else some (CSSItem.decl (overrideProp k) color)) = some item := h
    by_cases hc : color = ""
    · rw [if_pos hc] at h2; cases h2
    · rw [if_neg hc] at h2
      cases h2
      rfl

open PresetCSSGenerator in
/-- Splitting the override block at one present key. -/
theorem overrideItems_split (c : ColorOverrides) (ks1 ks2 : List String)
    (key v : String) (hv : getOverride c key = some v) (hne : v ≠ "") :
    (ks1 ++ key :: ks2).filterMap (overrideItem c) =
      ks1.filterMap (overrideItem c) ++
      CSSItem.decl (overrideProp key) v :: ks2.filterMap (overrideItem c) := by
  have hitem : overrideItem c key = some (CSSItem.decl (overrideProp key) v) := by
    simp [overrideItem, hv, hne]
  simp only [List.filterMap_append, List.filterMap_cons, hitem]

open PresetCSSGenerator in
/-- Decomposition of the emission around one override declaration, given a
    split of the key list. -/
theorem overridePrecedence_of_split (preset : CustomColorPreset) (mode : OxMode)
    (c : ColorOverrides) (key v : String) (ks1 ks2 : List String)
    (hc : (paletteOf preset mode).colors = some c)
    (hsplit : overrideKeys = ks1 ++ key :: ks2)
    (hv : getOverride c key = some v) (hne : v ≠ "")
    (hdef : CSSItem.decl (overrideProp key)
      (computedDefaultValue key (paletteOf preset mode)) ∈
      headItems preset mode (paletteOf preset mode))
    (hnotin : overrideProp key ∉ ks2.map overrideProp) :
    ∃ l1 l2,
      cssItems preset mode = l1 ++ CSSItem.decl (overrideProp key) v :: l2 ∧
      CSSItem.decl (overrideProp key)
        (computedDefaultValue key (paletteOf preset mode)) ∈ l1 ∧
      (∀ item ∈ l2, itemProp item ≠ some (overrideProp key)) ∧
      strContains (generateCSS preset mode)
        (renderItem (CSSItem.decl (overrideProp key) v)) = true := by
  have hov : overrideItems (paletteOf preset mode).colors =
      ks1.filterMap (overrideItem c) ++
      CSSItem.decl (overrideProp key) v :: ks2.filterMap (overrideItem c) := by
    rw [hc]
    show overrideKeys.filterMap (overrideItem c) = _
    rw [hsplit, overrideItems_split c ks1 ks2 key v hv hne]
  have hcss : cssItems preset mode =
      (headItems preset mode (paletteOf preset mode) ++
        frameItems (paletteOf preset mode) ++ ks1.filterMap (overrideItem c)) ++
      CSSItem.decl (overrideProp key) v ::
      (ks2.filterMap (overrideItem c) ++ [CSSItem.raw "\x7d\n"]) := by
    show headItems preset mode (paletteOf preset mode) ++
        frameItems (paletteOf preset mode) ++
        overrideItems (paletteOf preset mode).colors ++ [CSSItem.raw "\x7d\n"] = _
    rw [hov]
    simp [List.append_assoc]
  refine ⟨_, _, hcss, ?_, ?_, ?_⟩
  · exact List.mem_append_left _ (List.mem_append_left _ hdef)
  · intro item hitem
    rcases List.mem_append.mp hitem with h | h
    · obtain ⟨k, hk, he⟩ := List.mem_filterMap.mp h
      rw [overrideItem_prop c k item he]
      intro hEq
      exact hnotin (List.mem_map.mpr ⟨k, hk, Option.some.inj hEq⟩)
    · have : item = CSSItem.raw "\x7d\n" := by simpa using h
      rw [this]
      simp [itemProp]
  · refine strContains_of_eq_append _
      (concatPieces (headItems preset mode (paletteOf preset mode) ++
        frameItems (paletteOf preset mode) ++ ks1.filterMap (overrideItem c)))
      _
      (concatPieces (ks2.filterMap (overrideItem c) ++ [CSSItem.raw "\x7d\n"])) ?_
    show concatPieces (cssItems preset mode) = _
    rw [hcss, concatPieces_split]

open PresetCSSGenerator in
/-- C9: for every preset, mode and override key present in the palette's
    colors map with a non-empty value, the emitted CSS contains the
    override declaration strictly after the computed-default declaration
    of the same property, and no later emitted declaration carries that
    property, so the override is the last occurrence. -/
theorem C9_theorem (preset : CustomColorPreset) (mode : OxMode)
    (key v : String) (c : ColorOverrides)
    (hkey : key ∈ overrideKeys)
    (hc : (paletteOf preset mode).colors = some c)
    (hv : getOverride c key = some v) (hne : v ≠ "") :
    ∃ l1 l2,
      cssItems preset mode = l1 ++ CSSItem.decl (overrideProp key) v :: l2 ∧
      CSSItem.decl (overrideProp key)
        (computedDefaultValue key (paletteOf preset mode)) ∈ l1 ∧
      (∀ item ∈ l2, itemProp item ≠ some (overrideProp key)) ∧
      strContains (generateCSS preset mode)
        (renderItem (CSSItem.decl (overrideProp key) v)) = true := by
  obtain ⟨ks1, ks2, hsplit⟩ := List.append_of_mem hkey
  have hnodup : (overrideKeys.map overrideProp).Nodup := by decide
  have hnotin : overrideProp key ∉ ks2.map overrideProp := by
    rw [hsplit, List.map_append, List.map_cons] at hnodup
    exact (List.nodup_cons.mp hnodup.of_append_right).1
  exact overridePrecedence_of_split preset mode c key v ks1 ks2 hc hsplit hv hne
    (computedDefault_mem_head preset mode (paletteOf preset mode) key hkey) hnotin

/-- An overrides record carrying only bg1, with the literal from the
    spec's override-precedence test. -/
def ovC9 : ColorOverrides := { bg1 := some "#123456" }

/-- A preset whose light palette overrides bg1 with #123456. -/
def presetC9 : CustomColorPreset :=
  { id := "probe9", name := "Probe9",
    light := { base := ⟨20, 30, 95⟩, accent := ⟨10, 80, 55⟩, colors := some ovC9 },
    dark := { base := ⟨220, 15, 12⟩, accent := ⟨10, 80, 55⟩ } }

open PresetCSSGenerator in
/-- C9 witness: the bg1 override #123456 of a concrete preset is emitted
    after the computed default and is the last bg1 declaration. -/
theorem C9_witness :
    ("bg1" ∈ overrideKeys) ∧
    ((PresetCSSGenerator.paletteOf presetC9 OxMode.light).colors = some ovC9) ∧
    (getOverride ovC9 "bg1" = some "#123456") ∧
    (∃ l1 l2,
      cssItems presetC9 OxMode.light =
        l1 ++ CSSItem.decl (overrideProp "bg1") "#123456" :: l2 ∧
      CSSItem.decl (overrideProp "bg1")
        (computedDefaultValue "bg1" (paletteOf presetC9 OxMode.light)) ∈ l1 ∧
      (∀ item ∈ l2, itemProp item ≠ some (overrideProp "bg1")) ∧
      strContains (generateCSS presetC9 OxMode.light)
        (renderItem (CSSItem.decl (overrideProp "bg1") "#123456")) = true) :=
  ⟨by decide, rfl, rfl,
    C9_theorem presetC9 OxMode.light "bg1" "#123456" ovC9 (by decide) rfl rfl
      (by decide)⟩

/-! ## JSON model and the preset registry (src/presets/PresetManager.ts)

JSON.parse output is modelled as a JValue; a JS exception is
Except.error with the thrown message. -/

/-- A parsed JSON value. -/
inductive JValue where
  | jnull
  | jbool (b : Bool)
  | jnum (q : ℚ)
  | jstr (s : String)
  | jarr (elems : List JValue)
  | jobj (fields : List (String × JValue))

/-- First-match association lookup (the documents of interest carry no
    duplicate keys, where JSON.parse would keep the last one). -/
def lookupField : List (String × JValue) → String → Option JValue
  | [], _ => none
  | (k, v) :: rest, key => if k = key then some v else lookupField rest key

/-- Member access v[key]: undefined (none) on anything but an object, as
    in JS property access on primitives. -/
def jfield : JValue → String → Option JValue
  | JValue.jobj fields, key => lookupField fields key
  | _, _ => none

/-- Member access through an optional value. -/
def ofield (o : Option JValue) (key : String) : Option JValue :=
  match o with
  | some v => jfield v key
  | none => none

/-- JavaScript truthiness of a possibly-absent value (undefined, null,
    false, 0 and the empty string are falsy). -/
def truthy : Option JValue → Bool
  | none => false
  | some JValue.jnull => false
  | some (JValue.jbool b) => b
  | some (JValue.jnum q) => !(decide (q = 0))
  | some (JValue.jstr s) => !(decide (s = ""))
  | some (JValue.jarr _) => true
  | some (JValue.jobj _) => true

/-- The local validateHSL closure of importPresetFromJSON: truthy, and h,
    s, l numeric members within 0..360 / 0..100 / 0..100. -/
def importValidateHSL (hsl : Option JValue) : Bool :=
  truthy hsl &&
  (match ofield hsl "h" with
   | some (JValue.jnum q) => decide (q ≥ 0) && decide (q ≤ 360)
   | _ => false) &&
  (match ofield hsl "s" with
   | some (JValue.jnum q) => decide (q ≥ 0) && decide (q ≤ 100)
   | _ => false) &&
  (match ofield hsl "l" with
   | some (JValue.jnum q) => decide (q ≥ 0) && decide (q ≤ 100)
   | _ => false)

/-- Numeric member or 0; importValidateHSL guarantees the numeric shape
    wherever this is used. -/
def numOr0 : Option JValue → ℚ
  | some (JValue.jnum q) => q
  | _ => 0

/-- The HSL triple stored by importPresetFromJSON (the h, s, l members of
    the validated object). -/
def hslOf (v : Option JValue) : HSLColor :=
  ⟨numOr0 (ofield v "h"), numOr0 (ofield v "s"), numOr0 (ofield v "l")⟩

/-- String member of an overrides object; a non-string member would be
    type-unsound in the TS model and is treated as absent. -/
def strField (o : Option JValue) (key : String) : Option String :=
  match ofield o key with
  | some (JValue.jstr s) => some s
  | _ => none

/-- The ColorOverrides stored by importPresetFromJSON for
    parsed.<mode>.colors || empty. -/
def colorsOf (o : Option JValue) : ColorOverrides :=
  { bg1 := strField o "bg1", bg2 := strField o "bg2", bg3 := strField o "bg3",
    ui1 := strField o "ui1", ui2 := strField o "ui2", ui3 := strField o "ui3",
    tx1 := strField o "tx1", tx2 := strField o "tx2", tx3 := strField o "tx3",
    tx4 := strField o "tx4", hl1 := strField o "hl1", hl2 := strField o "hl2",
    red := strField o "red", orange := strField o "orange",
    yellow := strField o "yellow", green := strField o "green",
    cyan := strField o "cyan", blue := strField o "blue",
    purple := strField o "purple", pink := strField o "pink" }

/-- The value of an expression x || dflt for an optional string member
    (the author and version fields of importPresetFromJSON).  A truthy
    non-string member would be type-unsound in the TS model and yields the
    default here. -/
def jstrOr (o : Option JValue) (dflt : String) : String :=
  match o with
  | some (JValue.jstr s) => if s = "" then dflt else s
  | _ => dflt

/-- The three truthiness guard groups of importPresetFromJSON. -/
def missingTopFields (j : JValue) : Bool :=
  !truthy (jfield j "id") || !truthy (jfield j "name") ||
  !truthy (jfield j "light") || !truthy (jfield j "dark")

/-- Guard for missing base or accent palettes. -/
def missingBaseAccent (j : JValue) : Bool :=
  !truthy (ofield (jfield j "light") "base") ||
  !truthy (ofield (jfield j "light") "accent") ||
  !truthy (ofield (jfield j "dark") "base") ||
  !truthy (ofield (jfield j "dark") "accent")

/-- Guard for out-of-range HSL components. -/
def badHSLRanges (j : JValue) : Bool :=
  !importValidateHSL (ofield (jfield j "light") "base") ||
  !importValidateHSL (ofield (jfield j "light") "accent") ||
  !importValidateHSL (ofield (jfield j "dark") "base") ||
  !importValidateHSL (ofield (jfield j "dark") "accent")

/-- Whether the parsed document is the JSON null value. -/
def isNullJ : JValue → Bool
  | JValue.jnull => true
  | _ => false

/-- PresetManager.importPresetFromJSON from src/presets/PresetManager.ts,
    applied to the parsed JSON value.  A null document makes the property
    access parsed.id throw a TypeError, as does a non-string id or name
    reaching sanitizePresetName (trim is not a function); any error is
    Except.error with the thrown message.  Note the constructed palettes
    carry base, accent and colors only: frameLightnessOffset is not read
    from the document. -/
def PresetManager.importPresetFromJSON (parsed : JValue) : Except String CustomColorPreset :=
  if isNullJ parsed then Except.error "TypeError: Cannot read properties of null"
  else
    if missingTopFields parsed then
      Except.error "Invalid preset format: missing required fields"
    else if missingBaseAccent parsed then
      Except.error "Invalid preset format: missing base or accent colors"
    else if badHSLRanges parsed then
      Except.error "Invalid preset format: HSL values out of range"
    else
      match jfield parsed "id", jfield parsed "name" with
      | some (JValue.jstr rawId), some (JValue.jstr rawName) =>
        let preset : CustomColorPreset :=
          { id := sanitizePresetName rawId
            name := sanitizePresetName rawName
            author := jstrOr (jfield parsed "author") ""
            version := jstrOr (jfield parsed "version") "1.0.0"
            light := { base := hslOf (ofield (jfield parsed "light") "base"),
                       accent := hslOf (ofield (jfield parsed "light") "accent"),
                       colors := some (colorsOf (ofield (jfield parsed "light") "colors")) }
            dark := { base := hslOf (ofield (jfield parsed "dark") "base"),
                      accent := hslOf (ofield (jfield parsed "dark") "accent"),
                      colors := some (colorsOf (ofield (jfield parsed "dark") "colors")) } }
        if preset.id = "" ∨ preset.name = "" then
          Except.error "Invalid preset format: ID or name is empty after sanitization"
        else
          Except.ok preset
      | _, _ => Except.error "TypeError: trim is not a function"

/-- JSON value of an HSLColor under JSON.stringify. -/
def hslJson (c : HSLColor) : JValue :=
  JValue.jobj [("h", JValue.jnum c.h), ("s", JValue.jnum c.s), ("l", JValue.jnum c.l)]

/-- JSON members of a ColorOverrides under JSON.stringify (undefined
    members are dropped). -/
def overridesJson (c : ColorOverrides) : List (String × JValue) :=
  (match c.bg1 with | some s => [("bg1", JValue.jstr s)] | none => []) ++
  (match c.bg2 with | some s => [("bg2", JValue.jstr s)] | none => []) ++
  (match c.bg3 with | some s => [("bg3", JValue.jstr s)] | none => []) ++
  (match c.ui1 with | some s => [("ui1", JValue.jstr s)] | none => []) ++
  (match c.ui2 with | some s => [("ui2", JValue.jstr s)] | none => []) ++
  (match c.ui3 with | some s => [("ui3", JValue.jstr s)] | none => []) ++
  (match c.tx1 with | some s => [("tx1", JValue.jstr s)] | none => []) ++
  (match c.tx2 with | some s => [("tx2", JValue.jstr s)] | none => []) ++
  (match c.tx3 with | some s => [("tx3", JValue.jstr s)] | none => []) ++
  (match c.tx4 with | some s => [("tx4", JValue.jstr s)] | none => []) ++
  (match c.hl1 with | some s => [("hl1", JValue.jstr s)] | none => []) ++
  (match c.hl2 with | some s => [("hl2", JValue.jstr s)] | none => []) ++
  (match c.red with | some s => [("red", JValue.jstr s)] | none => []) ++
  (match c.orange with | some s => [("orange", JValue.jstr s)] | none => []) ++
  (match c.yellow with | some s => [("yellow", JValue.jstr s)] | none => []) ++
  (match c.green with | some s => [("green", JValue.jstr s)] | none => []) ++
  (match c.cyan with | some s => [("cyan", JValue.jstr s)] | none => []) ++
  (match c.blue with | some s => [("blue", JValue.jstr s)] | none => []) ++
  (match c.purple with | some s => [("purple", JValue.jstr s)] | none => []) ++
  (match c.pink with | some s => [("pink", JValue.jstr s)] | none => [])

/-- JSON value of a ColorPalette under JSON.stringify (optional members
    present only when defined). -/
def paletteJson (p : ColorPalette) : JValue :=
  JValue.jobj
    ([("base", hslJson p.base), ("accent", hslJson p.accent)] ++
     (match p.colors with
      | some c => [("colors", JValue.jobj (overridesJson c))]
      | none => []) ++
     (match p.frameLightnessOffset with
      | some off => [("frameLightnessOffset", JValue.jnum off)]
      | none => []))

/-- PresetManager.exportPresetAsJSON: the parsed value of
    JSON.stringify(preset, null, 2) (pretty-printing whitespace carries no
    information; JS object members keep declaration order). -/
def PresetManager.exportPresetAsJSON (preset : CustomColorPreset) : JValue :=
  JValue.jobj
    [("id", JValue.jstr preset.id), ("name", JValue.jstr preset.name),
     ("author", JValue.jstr preset.author), ("version", JValue.jstr preset.version),
     ("light", paletteJson preset.light), ("dark", paletteJson preset.dark)]

/-- Acceptance condition of importPresetFromJSON, read off the claim: all
    four top fields present (truthy), base and accent present in both
    palettes, all four HSL triples numeric and in range, and id and name
    strings that stay non-empty after sanitization. -/
def importAccepted (j : JValue) : Bool :=
  !isNullJ j &&
  !missingTopFields j && !missingBaseAccent j && !badHSLRanges j &&
  (match jfield j "id", jfield j "name" with
   | some (JValue.jstr a), some (JValue.jstr b) =>
     !(decide (sanitizePresetName a = "")) && !(decide (sanitizePresetName b = ""))
   | _, _ => false)

/-! ## Claim C5 -/

/-- An otherwise valid import document that lacks dark.accent. -/
def docMissingDarkAccent : JValue :=
  JValue.jobj
    [("id", JValue.jstr "sunset"), ("name", JValue.jstr "Sunset"),
     ("light", JValue.jobj [("base", hslJson ⟨20, 30, 95⟩), ("accent", hslJson ⟨10, 80, 55⟩)]),
     ("dark", JValue.jobj [("base", hslJson ⟨220, 15, 12⟩)])]

/-- An otherwise valid import document with light.base.h = 400. -/
def docLightH400 : JValue :=
  JValue.jobj
    [("id", JValue.jstr "sunset"), ("name", JValue.jstr "Sunset"),
     ("light", JValue.jobj [("base", hslJson ⟨400, 30, 95⟩), ("accent", hslJson ⟨10, 80, 55⟩)]),
     ("dark", JValue.jobj [("base", hslJson ⟨220, 15, 12⟩), ("accent", hslJson ⟨10, 80, 55⟩)])]

/-- A structurally valid import document whose name is only whitespace. -/
def docWhitespaceName : JValue :=
  JValue.jobj
    [("id", JValue.jstr "sunset"), ("name", JValue.jstr "   "),
     ("light", JValue.jobj [("base", hslJson ⟨20, 30, 95⟩), ("accent", hslJson ⟨10, 80, 55⟩)]),
     ("dark", JValue.jobj [("base", hslJson ⟨220, 15, 12⟩), ("accent", hslJson ⟨10, 80, 55⟩)])]

/-- C5: importPresetFromJSON returns a preset exactly when the parsed
    document has truthy id, name, light and dark, present base and accent
    in both palettes, four numeric in-range HSL triples, and string id and
    name that stay non-empty after sanitization; every other document
    makes it throw.  In particular, a document missing dark.accent, one
    with light.base.h = 400, and one whose name is only whitespace all
    fail with the corresponding format error.  The function reads its
    argument only, so no state is modified on failure. -/
theorem C5_theorem :
    (∀ j : JValue, (∃ p, PresetManager.importPresetFromJSON j = Except.ok p) ↔
      importAccepted j = true) ∧
    PresetManager.importPresetFromJSON docMissingDarkAccent =
      Except.error "Invalid preset format: missing base or accent colors" ∧
    PresetManager.importPresetFromJSON docLightH400 =
      Except.error "Invalid preset format: HSL values out of range" ∧
    PresetManager.importPresetFromJSON docWhitespaceName =
      Except.error "Invalid preset format: ID or name is empty after sanitization" := by
  refine ⟨?_, by with_unfolding_all rfl, by with_unfolding_all rfl,
    by with_unfolding_all rfl⟩
  intro j
  simp only [PresetManager.importPresetFromJSON, importAccepted]
  split_ifs with h0 h1 h2 h3
  · simp [h0]
  · simp [h0, h1]
  · simp [h0, h1, h2]
  · simp [h0, h1, h2, h3]
  · simp only [h0, h1, h2, h3, Bool.not_false, Bool.true_and, Bool.not_true]
    split
    next a b heq1 heq2 =>
      split_ifs with h4
      · rcases h4 with ha | hb
        · simp [ha]
        · simp [hb]
      · push_neg at h4
        simp [h4.1, h4.2]
    next =>
      simp
/-! ## Claim C8 -/

/-- C8 amended: every accepted import document yields a preset whose id is
    sanitizePresetName of the document id (trim and strip the forbidden
    characters), not the lowercase-slug routine generatePresetId that
    creation uses. -/
theorem C8_amended (j : JValue) (p : CustomColorPreset)
    (h : PresetManager.importPresetFromJSON j = Except.ok p) :
    ∃ s, jfield j "id" = some (JValue.jstr s) ∧ p.id = sanitizePresetName s := by
  simp only [PresetManager.importPresetFromJSON] at h
  split_ifs at h with h0 h1 h2 h3
  split at h
  next a b heq1 heq2 =>
    split_ifs at h with h4
    exact ⟨a, heq1, by rw [← Except.ok.inj h]⟩
  next => exact Except.noConfusion h

/-- An import document with the mixed-case, space-bearing id My Preset. -/
def docC8 : JValue :=
  JValue.jobj
    [("id", JValue.jstr "My Preset"), ("name", JValue.jstr "My Preset"),
     ("light", JValue.jobj [("base", hslJson ⟨20, 30, 95⟩), ("accent", hslJson ⟨10, 80, 55⟩)]),
     ("dark", JValue.jobj [("base", hslJson ⟨220, 15, 12⟩), ("accent", hslJson ⟨10, 80, 55⟩)])]

/-- The preset docC8 imports to. -/
def presetC8 : CustomColorPreset :=
  { id := "My Preset", name := "My Preset", author := "", version := "1.0.0",
    light := { base := ⟨20, 30, 95⟩, accent := ⟨10, 80, 55⟩, colors := some {} },
    dark := { base := ⟨220, 15, 12⟩, accent := ⟨10, 80, 55⟩, colors := some {} } }

/-- C8 counterexample: importing a document whose id is My Preset returns
    the id My Preset unchanged (only sanitizePresetName is applied), while
    the creation-time slug routine gives my-preset; import does not
    re-slug the id through generatePresetId. -/
theorem C8_counterexample :
    PresetManager.importPresetFromJSON docC8 = Except.ok presetC8 ∧
    presetC8.id = "My Preset" ∧
    generatePresetId "My Preset" = "my-preset" ∧
    ("My Preset" : String) ≠ "my-preset" := by
  refine ⟨by with_unfolding_all rfl, rfl, by with_unfolding_all decide, by decide⟩

/-- C8 witness: the amended statement applied to the concrete document
    docC8. -/
theorem C8_witness :
    ∃ s, jfield docC8 "id" = some (JValue.jstr s) ∧
      presetC8.id = sanitizePresetName s :=
  C8_amended docC8 presetC8 (by with_unfolding_all rfl)

/-! ## Claim C6 -/

/-- The import-side HSL validation agrees with validateHSL on serialized
    triples. -/
theorem importValidateHSL_json (c : HSLColor) :
    importValidateHSL (some (hslJson c)) = validateHSL c := by
  rw [Bool.eq_iff_iff]
  simp only [importValidateHSL, hslJson, validateHSL, ofield, jfield, lookupField,
    truthy, Bool.and_eq_true, decide_eq_true_eq]
  simp
  tauto

/-- A palette without frameLightnessOffset never emits the
    frame-background-l declaration. -/
theorem frame_not_emitted (preset : CustomColorPreset) (mode : OxMode)
    (hf : (PresetCSSGenerator.paletteOf preset mode).frameLightnessOffset = none) :
    ∀ v, CSSItem.decl "--frame-background-l" v ∉ PresetCSSGenerator.cssItems preset mode := by
  intro v hv
  have hfr : PresetCSSGenerator.frameItems (PresetCSSGenerator.paletteOf preset mode) = [] := by
    unfold PresetCSSGenerator.frameItems
    rw [hf]
  simp only [PresetCSSGenerator.cssItems, hfr, List.append_nil, List.mem_append,
    List.mem_singleton] at hv
  rcases hv with (h1 | h2) | h3
  · simp [PresetCSSGenerator.headItems] at h1
  · cases hcol : (PresetCSSGenerator.paletteOf preset mode).colors with
    | none => rw [hcol] at h2; simp [PresetCSSGenerator.overrideItems] at h2
    | some c =>
      rw [hcol] at h2
      simp only [PresetCSSGenerator.overrideItems] at h2
      obtain ⟨k, hk, he⟩ := List.mem_filterMap.mp h2
      have hp := overrideItem_prop c k _ he
      simp only [itemProp, Option.some.injEq] at hp
      have hno : ∀ k2 ∈ PresetCSSGenerator.overrideKeys,
          PresetCSSGenerator.overrideProp k2 ≠ "--frame-background-l" := by decide
      exact hno k hk hp.symm
  · exact CSSItem.noConfusion h3

/-- A preset carrying a light-mode frameLightnessOffset of −25 on the
    sunset palettes. -/
def presetC6 : CustomColorPreset :=
  { id := "sunset", name := "Sunset",
    light := { base := ⟨20, 30, 95⟩, accent := ⟨10, 80, 55⟩,
               frameLightnessOffset := some (-25) },
    dark := { base := ⟨220, 15, 12⟩, accent := ⟨10, 80, 55⟩ } }

/-- The preset that exporting and re-importing presetC6 produces: the
    frameLightnessOffset is gone. -/
def presetC6imported : CustomColorPreset :=
  { id := "sunset", name := "Sunset", author := "", version := "1.0.0",
    light := { base := ⟨20, 30, 95⟩, accent := ⟨10, 80, 55⟩, colors := some {} },
    dark := { base := ⟨220, 15, 12⟩, accent := ⟨10, 80, 55⟩, colors := some {} } }

/-- C6 counterexample: a valid preset whose light palette carries
    frameLightnessOffset −25 exports and re-imports successfully, but the
    re-imported preset carries no frameLightnessOffset in either palette;
    the original emits the frame-background-l declaration (55 − 25 = 30%)
    and the re-imported preset does not. -/
theorem C6_counterexample :
    presetC6.light.frameLightnessOffset = some (-25) ∧
    PresetManager.importPresetFromJSON (PresetManager.exportPresetAsJSON presetC6) =
      Except.ok presetC6imported ∧
    presetC6imported.light.frameLightnessOffset = none ∧
    presetC6imported.dark.frameLightnessOffset = none ∧
    strContains (PresetCSSGenerator.generateCSS presetC6 OxMode.light)
      "  --frame-background-l: 30%;\n" = true ∧
    strContains (PresetCSSGenerator.generateCSS presetC6imported OxMode.light)
      "  --frame-background-l: 30%;\n" = false := by
  refine ⟨rfl, by with_unfolding_all rfl, rfl, rfl, ?_, ?_⟩ <;>
  · rw [PresetCSSGenerator.generateCSS_toa_split, sunsetAccent_toa _ rfl]
    with_unfolding_all decide

/-- C6 amended: for every structurally valid preset (sanitized id and name
    non-empty, all four HSL seeds in range), importing its export succeeds,
    but the optional frameLightnessOffset does not survive the round-trip:
    both palettes of the re-imported preset carry none, so generateCSS on
    the re-imported preset emits no frame-background-l declaration in
    either mode. -/
theorem C6_amended (preset : CustomColorPreset)
    (hid : sanitizePresetName preset.id ≠ "")
    (hname : sanitizePresetName preset.name ≠ "")
    (hlb : validateHSL preset.light.base = true)
    (hla : validateHSL preset.light.accent = true)
    (hdb : validateHSL preset.dark.base = true)
    (hda : validateHSL preset.dark.accent = true) :
    ∃ p, PresetManager.importPresetFromJSON (PresetManager.exportPresetAsJSON preset) =
        Except.ok p ∧
      p.light.frameLightnessOffset = none ∧
      p.dark.frameLightnessOffset = none ∧
      (∀ mode v, CSSItem.decl "--frame-background-l" v ∉
        PresetCSSGenerator.cssItems p mode) := by
  have hidne : preset.id ≠ "" := fun hh =>
    hid (by rw [hh]; with_unfolding_all decide)
  have hnamene : preset.name ≠ "" := fun hh =>
    hname (by rw [hh]; with_unfolding_all decide)
  have fid : jfield (PresetManager.exportPresetAsJSON preset) "id" =
      some (JValue.jstr preset.id) := rfl
  have fname : jfield (PresetManager.exportPresetAsJSON preset) "name" =
      some (JValue.jstr preset.name) := rfl
  have flight : jfield (PresetManager.exportPresetAsJSON preset) "light" =
      some (paletteJson preset.light) := rfl
  have fdark : jfield (PresetManager.exportPresetAsJSON preset) "dark" =
      some (paletteJson preset.dark) := rfl
  have fbase : ∀ q : ColorPalette, ofield (some (paletteJson q)) "base" =
      some (hslJson q.base) := fun q => rfl
  have faccent : ∀ q : ColorPalette, ofield (some (paletteJson q)) "accent" =
      some (hslJson q.accent) := fun q => rfl
  have e0 : isNullJ (PresetManager.exportPresetAsJSON preset) = false := rfl
  have e1 : missingTopFields (PresetManager.exportPresetAsJSON preset) = false := by
    simp [missingTopFields, fid, fname, flight, fdark, truthy, hidne, hnamene, paletteJson]
  have e2 : missingBaseAccent (PresetManager.exportPresetAsJSON preset) = false := by
    simp [missingBaseAccent, flight, fdark, fbase, faccent, truthy, hslJson]
  have e3 : badHSLRanges (PresetManager.exportPresetAsJSON preset) = false := by
    simp [badHSLRanges, flight, fdark, fbase, faccent, importValidateHSL_json,
      hlb, hla, hdb, hda]
  refine ⟨{ id := sanitizePresetName preset.id,
            name := sanitizePresetName preset.name,
            author := jstrOr (jfield (PresetManager.exportPresetAsJSON preset) "author") "",
            version := jstrOr (jfield (PresetManager.exportPresetAsJSON preset) "version")
              "1.0.0",
            light := { base := hslOf (ofield (jfield (PresetManager.exportPresetAsJSON preset)
                         "light") "base"),
                       accent := hslOf (ofield (jfield (PresetManager.exportPresetAsJSON preset)
                         "light") "accent"),
                       colors := some (colorsOf (ofield (jfield
                         (PresetManager.exportPresetAsJSON preset) "light") "colors")) },
            dark := { base := hslOf (ofield (jfield (PresetManager.exportPresetAsJSON preset)
                        "dark") "base"),
                      accent := hslOf (ofield (jfield (PresetManager.exportPresetAsJSON preset)
                        "dark") "accent"),
                      colors := some (colorsOf (ofield (jfield
                        (PresetManager.exportPresetAsJSON preset) "dark") "colors")) } },
    ?_, rfl, rfl, ?_⟩
  · simp only [PresetManager.importPresetFromJSON, e0, e1, e2, e3, Bool.false_eq_true,
      if_false, fid, fname]
    rw [if_neg (not_or.mpr ⟨hid, hname⟩)]
  · intro mode v
    apply frame_not_emitted
    cases mode <;> rfl

/-- C6 witness: the amended statement applied to presetC6. -/
theorem C6_witness :
    ∃ p, PresetManager.importPresetFromJSON (PresetManager.exportPresetAsJSON presetC6) =
        Except.ok p ∧
      p.light.frameLightnessOffset = none ∧
      p.dark.frameLightnessOffset = none ∧
      (∀ mode v, CSSItem.decl "--frame-background-l" v ∉
        PresetCSSGenerator.cssItems p mode) :=
  C6_amended presetC6 (by with_unfolding_all decide) (by with_unfolding_all decide)
    (by with_unfolding_all decide) (by with_unfolding_all decide)
    (by with_unfolding_all decide) (by with_unfolding_all decide)

/-! ## Decimal rendering of counters (claim C7)

The template interpolation of the loop counter renders it in decimal,
which is Nat.repr; these lemmas recover its digits, value and
injectivity. -/

/-- Decimal digit list of a natural number, most significant first. -/
def decimalDigits (n : ℕ) : List Char :=
  if _h : n < 10 then [Nat.digitChar n]
  else decimalDigits (n / 10) ++ [Nat.digitChar (n % 10)]
  termination_by n
  decreasing_by
    exact Nat.div_lt_self (by omega) (by omega)

/-- The fueled core of Nat.repr computes decimalDigits when the fuel
    dominates the number. -/
theorem toDigitsCore_eq_decimal :
    ∀ f n ds, n < 10 ^ (f + 1) →
      Nat.toDigitsCore 10 (f + 1) n ds = decimalDigits n ++ ds := by
  intro f
  induction f with
  | zero =>
    intro n ds hn
    have hn10 : n < 10 := by simpa using hn
    unfold Nat.toDigitsCore
    rw [if_pos (by omega : n / 10 = 0)]
    rw [decimalDigits, dif_pos hn10, Nat.mod_eq_of_lt hn10]
    rfl
  | succ f ih =>
    intro n ds hn
    unfold Nat.toDigitsCore
    by_cases hz : n / 10 = 0
    · rw [if_pos hz]
      have hn10 : n < 10 := by omega
      rw [decimalDigits, dif_pos hn10, Nat.mod_eq_of_lt hn10]
      rfl
    · rw [if_neg hz]
      have hdiv : n / 10 < 10 ^ (f + 1) := by
        have := Nat.pow_succ 10 (f + 1)
        rw [Nat.div_lt_iff_lt_mul (by omega : 0 < 10)]
        omega
      rw [ih (n / 10) (Nat.digitChar (n % 10) :: ds) hdiv]
      have hge : ¬(n < 10) := by
        intro hlt
        exact hz (Nat.div_eq_of_lt hlt)
      conv_rhs => rw [decimalDigits, dif_neg hge]
      simp

/-- Nat.repr renders the decimal digits. -/
theorem repr_eq_decimal (n : ℕ) : Nat.repr n = (decimalDigits n).asString := by
  have hn : n < 10 ^ (n + 1) := by
    calc n < 10 ^ n := Nat.lt_pow_self (by omega) n
    _ ≤ 10 ^ (n + 1) := Nat.pow_le_pow_right (by omega) (by omega)
  show (Nat.toDigits 10 n).asString = _
  unfold Nat.toDigits
  rw [toDigitsCore_eq_decimal n n [] hn, List.append_nil]

/-- Horner decoding of a digit list. -/
def decodeDigits (l : List Char) : ℕ :=
  l.foldl (fun a c => 10 * a + hexCharVal c) 0

/-- Folding from an arbitrary accumulator. -/
theorem decodeDigits_go (l : List Char) (a : ℕ) :
    l.foldl (fun a c => 10 * a + hexCharVal c) a =
      a * 10 ^ l.length + decodeDigits l := by
  induction l generalizing a with
  | nil => simp [decodeDigits]
  | cons c cs ih =>
    simp only [List.foldl_cons, decodeDigits] at *
    rw [ih (10 * a + hexCharVal c), ih (10 * 0 + hexCharVal c)]
    simp [List.length_cons, pow_succ]
    ring

/-- Decoding inverts decimalDigits. -/
theorem decode_decimalDigits : ∀ n, decodeDigits (decimalDigits n) = n := by
  intro n
  induction n using Nat.strong_induction_on with
  | _ n ih =>
    by_cases h : n < 10
    · rw [decimalDigits, dif_pos h]
      have hd : ∀ m, m < 10 → hexCharVal (Nat.digitChar m) = m := by decide
      simp [decodeDigits, hd n h]
    · rw [decimalDigits, dif_neg h]
      have hrec := ih (n / 10) (Nat.div_lt_self (by omega) (by omega))
      simp only [decodeDigits, List.foldl_append, List.foldl_cons, List.foldl_nil]
      rw [show List.foldl (fun a c => 10 * a + hexCharVal c) 0 (decimalDigits (n / 10)) =
        decodeDigits (decimalDigits (n / 10)) from rfl, hrec]
      have hd : ∀ m, m < 10 → hexCharVal (Nat.digitChar m) = m := by decide
      rw [hd (n % 10) (Nat.mod_lt n (by omega))]
      omega

/-- Nat.repr is injective. -/
theorem repr_injective (m n : ℕ) (h : Nat.repr m = Nat.repr n) : m = n := by
  rw [repr_eq_decimal, repr_eq_decimal] at h
  have hdata : decimalDigits m = decimalDigits n := by
    have := congrArg String.data h
    simpa [List.asString] using this
  rw [← decode_decimalDigits m, ← decode_decimalDigits n, hdata]

/-- Decimal digits are slug characters. -/
theorem decimalDigits_slug : ∀ n c, c ∈ decimalDigits n → slugChar c = true := by
  intro n
  induction n using Nat.strong_induction_on with
  | _ n ih =>
    intro c hc
    by_cases h : n < 10
    · rw [decimalDigits, dif_pos h] at hc
      have hd : ∀ m, m < 10 → slugChar (Nat.digitChar m) = true := by decide
      simp only [List.mem_singleton] at hc
      rw [hc]
      exact hd n h
    · rw [decimalDigits, dif_neg h] at hc
      rcases List.mem_append.mp hc with h1 | h2
      · exact ih (n / 10) (Nat.div_lt_self (by omega) (by omega)) c h1
      · have hd : ∀ m, m < 10 → slugChar (Nat.digitChar m) = true := by decide
        simp only [List.mem_singleton] at h2
        rw [h2]
        exact hd (n % 10) (Nat.mod_lt n (by omega))

/-! ## Claim C7: createPreset -/

/-- DEFAULT_COLOR_PALETTE from src/presets/CustomPreset.ts. -/
def DEFAULT_COLOR_PALETTE : ColorPalette :=
  { base := ⟨210, 20, 50⟩, accent := ⟨200, 80, 50⟩, colors := some {} }

/-- Alias naming the color-utils validatePresetId, so the identically
    named static method of PresetManager below can refer to it. -/
def validatePresetIdFmt (id : String) : Bool := validatePresetId id

/-- The alias agrees with the original. -/
theorem validatePresetIdFmt_eq (id : String) :
    validatePresetIdFmt id = validatePresetId id := rfl

/-- PresetManager.validatePresetId: format plus uniqueness (no
    excludeId when called from createPreset). -/
def PresetManager.validatePresetId (id : String)
    (existingPresets : List CustomColorPreset) : Bool :=
  validatePresetIdFmt id && isPresetIdUnique id existingPresets none

/-- The id tried by the k-th iteration of the createPreset while loop:
    the slug itself, then slug-1, slug-2, and so on (the counter is
    rendered in decimal by the template literal, i.e. Nat.repr). -/
def candidateId (slug : String) (k : ℕ) : String :=
  if k = 0 then slug else slug ++ "-" ++ Nat.repr k

/-- The while loop of createPreset, indexed by remaining fuel; none means
    the loop is still running after that many iterations.  The source has
    no bound: the loop runs until validatePresetId accepts. -/
def createLoop (slug : String) (existing : List CustomColorPreset) :
    ℕ → ℕ → Option String
  | _, 0 => none
  | k, fuel + 1 =>
    if PresetManager.validatePresetId (candidateId slug k) existing then
      some (candidateId slug k)
    else createLoop slug existing (k + 1) fuel

/-- PresetManager.createPreset from src/presets/PresetManager.ts.  The
    unbounded while loop is modelled with fuel: ok none means the loop had
    not exited after the given number of iterations. -/
def PresetManager.createPreset (name : String) (author : String)
    (existingPresets : List CustomColorPreset) (fuel : ℕ) :
    Except String (Option CustomColorPreset) :=
  let sanitizedName := sanitizePresetName name
  if sanitizedName = "" then Except.error "Preset name cannot be empty"
  else
    match createLoop (generatePresetId sanitizedName) existingPresets 0 fuel with
    | some id =>
      Except.ok (some
        { id := id, name := sanitizedName, author := author.trim, version := "1.0.0",
          light := DEFAULT_COLOR_PALETTE, dark := DEFAULT_COLOR_PALETTE })
    | none => Except.ok none

/-- Termination of createPreset: some fuel suffices for the loop to
    exit. -/
def CreateTerminates (name author : String)
    (existing : List CustomColorPreset) : Prop :=
  ∃ fuel p, PresetManager.createPreset name author existing fuel = Except.ok (some p)

/-- A 50-character slug name. -/
def nameC7 : String := "aaaaaaaaaaaaaaaaaaaaaaaaaaaaaaaaaaaaaaaaaaaaaaaaaa"

/-- An existing preset occupying the 50-character slug. -/
def presetBlocker : CustomColorPreset :=
  { id := nameC7, name := nameC7,
    light := DEFAULT_COLOR_PALETTE, dark := DEFAULT_COLOR_PALETTE }

/-- Every candidate id is rejected in the blocked 50-character situation:
    the slug itself collides, and every suffixed candidate is longer than
    50 characters. -/
theorem candidateC7_invalid (k : ℕ) :
    PresetManager.validatePresetId (candidateId nameC7 k) [presetBlocker] = false := by
  cases k with
  | zero =>
    with_unfolding_all decide
  | succ k =>
    have hlen : (candidateId nameC7 (k + 1)).length = 51 + (Nat.repr (k + 1)).length := by
      rw [candidateId, if_neg (by omega : ¬(k + 1 = 0))]
      rw [String.length_append, String.length_append]
      rfl
    have h50 : decide ((candidateId nameC7 (k + 1)).length ≤ 50) = false := by
      rw [decide_eq_false_iff_not]
      omega
    unfold PresetManager.validatePresetId validatePresetIdFmt validatePresetId
    rw [h50]
    simp

/-- The loop never exits in the blocked situation, whatever the fuel. -/
theorem createLoopC7_none : ∀ fuel k, createLoop nameC7 [presetBlocker] k fuel = none := by
  intro fuel
  induction fuel with
  | zero => intro k; rfl
  | succ fuel ih =>
    intro k
    unfold createLoop
    rw [candidateC7_invalid k]
    simp only [Bool.false_eq_true, if_false]
    exact ih (k + 1)

/-- C7 counterexample: for the 50-character name whose slug is already
    taken, the createPreset while loop never terminates: every suffixed id
    exceeds the 50-character limit of validatePresetId, so no amount of
    fuel makes the loop exit. -/
theorem C7_counterexample :
    sanitizePresetName nameC7 = nameC7 ∧
    generatePresetId nameC7 = nameC7 ∧
    nameC7.length = 50 ∧
    ¬ CreateTerminates nameC7 "" [presetBlocker] := by
  refine ⟨by with_unfolding_all decide, by with_unfolding_all decide,
    by decide, ?_⟩
  rintro ⟨fuel, p, hp⟩
  unfold PresetManager.createPreset at hp
  rw [if_neg (by with_unfolding_all decide :
    ¬(sanitizePresetName nameC7 = ""))] at hp
  rw [show generatePresetId (sanitizePresetName nameC7) = nameC7 by
    with_unfolding_all decide] at hp
  rw [createLoopC7_none fuel 0] at hp
  exact Option.noConfusion (Except.ok.inj hp)

/-- Characters of a generated slug are slug characters. -/
theorem generatePresetId_slug (name : String) :
    ∀ c ∈ (generatePresetId name).data, slugChar c = true := by
  intro c hc
  have hc2 : c ∈ (squashWhitespace ((sanitizePresetName name).data.map
      Char.toLower)).filter slugChar := by
    have := hc
    simp only [generatePresetId] at this
    exact List.mem_of_mem_take this
  exact (List.mem_filter.mp hc2).2

/-- Characters of a suffixed candidate are slug characters. -/
theorem candidate_chars (slug : String) (k : ℕ) (hk : 1 ≤ k)
    (hslug : ∀ c ∈ slug.data, slugChar c = true) :
    ∀ c ∈ (candidateId slug k).data, slugChar c = true := by
  intro c hc
  rw [candidateId, if_neg (by omega : ¬(k = 0))] at hc
  simp only [String.data_append] at hc
  rcases List.mem_append.mp hc with h1 | h2
  · rcases List.mem_append.mp h1 with h3 | h4
    · exact hslug c h3
    · have : c = '-' := by simpa using h4
      rw [this]; rfl
  · have hdd : (Nat.repr k).data = decimalDigits k := by
      rw [repr_eq_decimal]
      rfl
    rw [hdd] at h2
    exact decimalDigits_slug k c h2

/-- A suffixed candidate that fits in 50 characters passes the format
    check. -/
theorem candidate_format_valid (slug : String) (k : ℕ) (hk : 1 ≤ k)
    (hslug : ∀ c ∈ slug.data, slugChar c = true)
    (hfit : (candidateId slug k).length ≤ 50) :
    validatePresetId (candidateId slug k) = true := by
  have hlen : 0 < (candidateId slug k).length := by
    rw [candidateId, if_neg (by omega : ¬(k = 0))]
    rw [String.length_append, String.length_append]
    have : ("-" : String).length = 1 := rfl
    omega
  unfold validatePresetId
  rw [List.all_eq_true.mpr (candidate_chars slug k hk hslug)]
  rw [decide_eq_true hlen, decide_eq_true hfit]
  rfl

/-- A non-unique id occurs among the existing ids. -/
theorem not_unique_mem (id : String) (existing : List CustomColorPreset)
    (h : isPresetIdUnique id existing none = false) :
    id ∈ existing.map CustomColorPreset.id := by
  unfold isPresetIdUnique at h
  simp only [Bool.not_eq_false', List.any_eq_true] at h
  obtain ⟨p, hp, he⟩ := h
  simp only [Bool.and_true] at he
  have : p.id = id := by simpa using he
  exact List.mem_map.mpr ⟨p, hp, this⟩

/-- Suffixed candidates are pairwise distinct. -/
theorem candidate_injective (slug : String) (k1 k2 : ℕ)
    (h : candidateId slug (k1 + 1) = candidateId slug (k2 + 1)) : k1 = k2 := by
  rw [candidateId, if_neg (by omega : ¬(k1 + 1 = 0)),
      candidateId, if_neg (by omega : ¬(k2 + 1 = 0))] at h
  have hdata := congrArg String.data h
  simp only [String.data_append] at hdata
  rw [List.append_assoc, List.append_assoc] at hdata
  have h2 := List.append_cancel_left hdata
  have h3 := List.append_cancel_left h2
  have h4 : Nat.repr (k1 + 1) = Nat.repr (k2 + 1) := by
    apply congrArg List.asString at h3
    have e1 : (Nat.repr (k1 + 1)).data.asString = Nat.repr (k1 + 1) := by
      apply String.ext
      simp [List.asString]
    have e2 : (Nat.repr (k2 + 1)).data.asString = Nat.repr (k2 + 1) := by
      apply String.ext
      simp [List.asString]
    rw [e1, e2] at h3
    exact h3
  have := repr_injective (k1 + 1) (k2 + 1) h4
  omega

/-- Pigeonhole: among the candidates slug-1 .. slug-(n+1), with n the
    number of existing presets, some candidate is both well-formed and
    unused. -/
theorem exists_valid_candidate (slug : String)
    (existing : List CustomColorPreset)
    (hslug : ∀ c ∈ slug.data, slugChar c = true)
    (hfits : ∀ k, k < existing.length + 2 → 1 ≤ k → (candidateId slug k).length ≤ 50) :
    ∃ k, 1 ≤ k ∧ k ≤ existing.length + 1 ∧
      PresetManager.validatePresetId (candidateId slug k) existing = true := by
  by_contra hno
  push_neg at hno
  have hmem : ∀ k, k < existing.length + 1 →
      candidateId slug (k + 1) ∈ existing.map CustomColorPreset.id := by
    intro k hk
    have h1 : 1 ≤ k + 1 := by omega
    have h2 : k + 1 ≤ existing.length + 1 := by omega
    have hv := hno (k + 1) h1 h2
    have hfmt := candidate_format_valid slug (k + 1) h1 hslug
      (hfits (k + 1) (by omega) h1)
    unfold PresetManager.validatePresetId at hv
    rw [validatePresetIdFmt_eq, hfmt, Bool.true_and] at hv
    exact not_unique_mem _ _ (Bool.eq_false_iff.mpr hv)
  have hinj : Function.Injective fun k : ℕ => candidateId slug (k + 1) :=
    fun k1 k2 h => candidate_injective slug k1 k2 h
  have hcard : (Finset.range (existing.length + 1)).card ≤
      (existing.map CustomColorPreset.id).toFinset.card := by
    apply Finset.card_le_card_of_injOn (fun k => candidateId slug (k + 1))
    · intro k hk
      rw [List.mem_toFinset]
      exact hmem k (Finset.mem_range.mp hk)
    · exact fun a _ b _ h => hinj h
  rw [Finset.card_range] at hcard
  have hlen : (existing.map CustomColorPreset.id).toFinset.card ≤ existing.length := by
    calc (existing.map CustomColorPreset.id).toFinset.card ≤
        (existing.map CustomColorPreset.id).length := (existing.map _).toFinset_card_le
    _ = existing.length := List.length_map _ _
  omega

/-- The loop exits at the first accepted candidate when one exists within
    the fuel. -/
theorem createLoop_finds (slug : String) (existing : List CustomColorPreset) :
    ∀ fuel k0, (∃ k, k0 ≤ k ∧ k < k0 + fuel ∧
        PresetManager.validatePresetId (candidateId slug k) existing = true) →
      ∃ k, createLoop slug existing k0 fuel = some (candidateId slug k) ∧
        k0 ≤ k ∧
        PresetManager.validatePresetId (candidateId slug k) existing = true ∧
        ∀ j, k0 ≤ j → j < k →
          PresetManager.validatePresetId (candidateId slug j) existing = false := by
  intro fuel
  induction fuel with
  | zero =>
    rintro k0 ⟨k, h1, h2, _⟩
    omega
  | succ fuel ih =>
    rintro k0 ⟨k, h1, h2, h3⟩
    by_cases hv : PresetManager.validatePresetId (candidateId slug k0) existing = true
    · refine ⟨k0, ?_, le_refl _, hv, fun j hj1 hj2 => absurd hj1 (by omega)⟩
      unfold createLoop
      rw [hv]
      simp
    · have hk0 : k ≠ k0 := fun he => hv (he ▸ h3)
      obtain ⟨k2, hl, hk2a, hk2b, hk2c⟩ :=
        ih (k0 + 1) ⟨k, by omega, by omega, h3⟩
      refine ⟨k2, ?_, by omega, hk2b, ?_⟩
      · unfold createLoop
        rw [Bool.eq_false_iff.mpr hv]
        simpa using hl
      · intro j hj1 hj2
        rcases Nat.eq_or_lt_of_le hj1 with he | hlt
        · rw [← he]
          exact Bool.eq_false_iff.mpr hv
        · exact hk2c j (by omega) hj2

/-- C7 amended: createPreset terminates for every name with a non-empty
    sanitization and every finite existing list, provided the suffixed
    candidates it may need (up to existing.length + 1) stay within the
    50-character id limit; it then returns a preset whose id is the first
    candidate (slug, then slug-1, slug-2, ...) that is well-formed and
    unique among existing ids; without the length proviso the loop can run
    forever (see the counterexample). -/
theorem C7_amended (name author : String) (existing : List CustomColorPreset)
    (hname : sanitizePresetName name ≠ "")
    (hfits : ∀ k, k < existing.length + 2 → 1 ≤ k →
      (candidateId (generatePresetId (sanitizePresetName name)) k).length ≤ 50) :
    ∃ p k,
      PresetManager.createPreset name author existing (existing.length + 2) =
        Except.ok (some p) ∧
      p.id = candidateId (generatePresetId (sanitizePresetName name)) k ∧
      validatePresetId p.id = true ∧
      isPresetIdUnique p.id existing none = true ∧
      (∀ j, j < k → PresetManager.validatePresetId
        (candidateId (generatePresetId (sanitizePresetName name)) j) existing = false) ∧
      p.name = sanitizePresetName name := by
  set slug := generatePresetId (sanitizePresetName name) with hslugdef
  have hex : ∃ k, 0 ≤ k ∧ k < 0 + (existing.length + 2) ∧
      PresetManager.validatePresetId (candidateId slug k) existing = true := by
    by_cases h0 : PresetManager.validatePresetId (candidateId slug 0) existing = true
    · exact ⟨0, le_refl _, by omega, h0⟩
    · obtain ⟨k, hk1, hk2, hk3⟩ := exists_valid_candidate slug existing
        (generatePresetId_slug _) hfits
      exact ⟨k, by omega, by omega, hk3⟩
  obtain ⟨k, hloop, _, hvalid, hleast⟩ :=
    createLoop_finds slug existing (existing.length + 2) 0 hex
  have hv2 := hvalid
  unfold PresetManager.validatePresetId at hv2
  rw [validatePresetIdFmt_eq, Bool.and_eq_true] at hv2
  refine ⟨{ id := candidateId slug k, name := sanitizePresetName name,
            author := author.trim, version := "1.0.0",
            light := DEFAULT_COLOR_PALETTE, dark := DEFAULT_COLOR_PALETTE },
    k, ?_, rfl, hv2.1, hv2.2, ?_, rfl⟩
  · unfold PresetManager.createPreset
    rw [if_neg hname]
    rw [← hslugdef, hloop]
  · intro j hj
    exact hleast j (Nat.zero_le j) hj

/-- An existing preset with the id sunset. -/
def presetC7taken : CustomColorPreset :=
  { id := "sunset", name := "Sunset",
    light := DEFAULT_COLOR_PALETTE, dark := DEFAULT_COLOR_PALETTE }

/-- C7 witness: the amended statement applied to the name Sunset against a
    list already containing the id sunset. -/
theorem C7_witness :
    ∃ p k,
      PresetManager.createPreset "Sunset" "" [presetC7taken] 3 =
        Except.ok (some p) ∧
      p.id = candidateId (generatePresetId (sanitizePresetName "Sunset")) k ∧
      validatePresetId p.id = true ∧
      isPresetIdUnique p.id [presetC7taken] none = true ∧
      (∀ j, j < k → PresetManager.validatePresetId
        (candidateId (generatePresetId (sanitizePresetName "Sunset")) j)
        [presetC7taken] = false) ∧
      p.name = sanitizePresetName "Sunset" :=
  C7_amended "Sunset" "" [presetC7taken] (by with_unfolding_all decide)
    (by with_unfolding_all decide)

/-! ## Rounding and hue2rgb analysis (claims C2 and C10) -/

/-- Math.round stays within half a unit above. -/
theorem mathRound_le_add_half (x : ℚ) : (mathRound x : ℚ) ≤ x + 1/2 :=
  Int.floor_le (x + 1/2)

/-- Math.round stays within half a unit below. -/
theorem lt_mathRound_add_half (x : ℚ) : x - 1/2 < (mathRound x : ℚ) := by
  have := Int.lt_floor_add_one (x + 1/2)
  unfold mathRound
  linarith

/-- Math.round is monotone. -/
theorem mathRound_mono (x y : ℚ) (h : x ≤ y) : mathRound x ≤ mathRound y :=
  Int.floor_le_floor (by linarith)

/-- Math.round of a value known to within half a unit of an integer. -/
theorem mathRound_eq_of_close (x : ℚ) (n : ℤ) (h1 : (n : ℚ) - 1/2 ≤ x)
    (h2 : x < (n : ℚ) + 1/2) : mathRound x = n := by
  unfold mathRound
  rw [Int.floor_eq_iff]
  constructor <;> push_cast <;> linarith

/-- Math.round is nonnegative on nonnegative input. -/
theorem mathRound_nonneg (x : ℚ) (h : 0 ≤ x) : 0 ≤ mathRound x := by
  unfold mathRound
  apply Int.le_floor.mpr
  push_cast
  linarith

/-- Math.round respects an integer upper bound. -/
theorem mathRound_le_of_le (x : ℚ) (n : ℤ) (h : x ≤ (n : ℚ)) : mathRound x ≤ n := by
  unfold mathRound
  rw [Int.floor_le_iff]
  push_cast
  linarith

/-- hue2rgb stays between p and q for the arguments the converter uses. -/
theorem hue2rgb_bounds (p q t : ℚ) (hpq : p ≤ q) (ht1 : -(1/3) ≤ t) (ht2 : t ≤ 4/3) :
    p ≤ hue2rgb p q t ∧ hue2rgb p q t ≤ q := by
  simp only [hue2rgb]
  by_cases h0 : t < 0
  · rw [if_pos h0]
    have hb1 : 0 ≤ t + 1 := by linarith
    have hb2 : t + 1 ≤ 1 := by linarith
    rw [if_neg (by linarith : ¬ t + 1 > 1)]
    split_ifs with c1 c2 c3 <;> constructor <;> nlinarith
  · rw [if_neg h0]
    push_neg at h0
    by_cases h1 : t > 1
    · rw [if_pos h1]
      have hb1 : 0 ≤ t - 1 := by linarith
      have hb2 : t - 1 ≤ 1/3 := by linarith
      split_ifs with c1 c2 c3 <;> constructor <;> nlinarith
    · rw [if_neg h1]
      push_neg at h1
      split_ifs with c1 c2 c3 <;> constructor <;> nlinarith

/-- hue2rgb evaluates to q on the middle plateau. -/
theorem hue2rgb_q (p q t : ℚ) (h1 : 1/6 ≤ t) (h2 : t ≤ 1/2) : hue2rgb p q t = q := by
  simp only [hue2rgb]
  rw [if_neg (by linarith : ¬ t < 0), if_neg (by linarith : ¬ t > 1),
    if_neg (by linarith : ¬ t < 1/6)]
  by_cases h3 : t < 1/2
  · rw [if_pos h3]
  · have ht : t = 1/2 := le_antisymm h2 (not_lt.mp h3)
    rw [if_neg h3, if_pos (by rw [ht]; norm_num : t < 2/3), ht]
    ring

/-- hue2rgb evaluates to q on the plateau reached after wrapping down. -/
theorem hue2rgb_q_over (p q t : ℚ) (h0 : t > 1) (h1 : 1/6 ≤ t - 1) (h2 : t - 1 ≤ 1/2) :
    hue2rgb p q t = q := by
  simp only [hue2rgb]
  rw [if_neg (by linarith : ¬ t < 0), if_pos h0, if_neg (by linarith : ¬ t - 1 < 1/6)]
  by_cases h3 : t - 1 < 1/2
  · rw [if_pos h3]
  · have ht : t - 1 = 1/2 := le_antisymm h2 (not_lt.mp h3)
    rw [if_neg h3, if_pos (by rw [ht]; norm_num : t - 1 < 2/3), ht]
    ring

/-- hue2rgb evaluates to p on the upper plateau. -/
theorem hue2rgb_p_high (p q t : ℚ) (h1 : 2/3 ≤ t) (h2 : t ≤ 1) : hue2rgb p q t = p := by
  simp only [hue2rgb]
  rw [if_neg (by linarith : ¬ t < 0), if_neg (by linarith : ¬ t > 1),
    if_neg (by linarith : ¬ t < 1/6), if_neg (by linarith : ¬ t < 1/2),
    if_neg (by linarith : ¬ t < 2/3)]

/-- hue2rgb evaluates to p on the upper plateau reached after wrapping
    up. -/
theorem hue2rgb_p_neg (p q t : ℚ) (h0 : t < 0) (h1 : 2/3 ≤ t + 1) (h2 : t + 1 ≤ 1) :
    hue2rgb p q t = p := by
  simp only [hue2rgb]
  rw [if_pos h0, if_neg (by linarith : ¬ t + 1 > 1),
    if_neg (by linarith : ¬ t + 1 < 1/6), if_neg (by linarith : ¬ t + 1 < 1/2),
    if_neg (by linarith : ¬ t + 1 < 2/3)]

/-- hue2rgb evaluates to p at zero. -/
theorem hue2rgb_p_zero (p q : ℚ) : hue2rgb p q 0 = p := by
  simp only [hue2rgb]
  norm_num

/-- Some channel attains q and some channel attains p: the three sample
    points of the converter always hit both plateaus. -/
theorem hue2rgb_attains (p q hq : ℚ) (hpq : p ≤ q) (h0 : 0 ≤ hq) (h1 : hq ≤ 1) :
    (hue2rgb p q (hq + 1/3) = q ∨ hue2rgb p q hq = q ∨ hue2rgb p q (hq - 1/3) = q) ∧
    (hue2rgb p q (hq + 1/3) = p ∨ hue2rgb p q hq = p ∨ hue2rgb p q (hq - 1/3) = p) := by
  by_cases s1 : hq ≤ 1/6
  · constructor
    · exact Or.inl (hue2rgb_q p q _ (by linarith) (by linarith))
    · refine Or.inr (Or.inr ?_)
      by_cases hz : hq - 1/3 < 0
      · exact hue2rgb_p_neg p q _ hz (by linarith) (by linarith)
      · have : hq = 1/3 := by linarith
        rw [this]
        norm_num [hue2rgb_p_zero]
  · by_cases s2 : hq ≤ 1/3
    · constructor
      · exact Or.inr (Or.inl (hue2rgb_q p q _ (by linarith) (by linarith)))
      · refine Or.inr (Or.inr ?_)
        by_cases hz : hq - 1/3 < 0
        · exact hue2rgb_p_neg p q _ hz (by linarith) (by linarith)
        · have : hq = 1/3 := by linarith
          rw [this]
          norm_num [hue2rgb_p_zero]
    · by_cases s3 : hq ≤ 1/2
      · exact ⟨Or.inr (Or.inl (hue2rgb_q p q _ (by linarith) (by linarith))),
          Or.inl (hue2rgb_p_high p q _ (by linarith) (by linarith))⟩
      · by_cases s4 : hq ≤ 2/3
        · exact ⟨Or.inr (Or.inr (hue2rgb_q p q _ (by linarith) (by linarith))),
            Or.inl (hue2rgb_p_high p q _ (by linarith) (by linarith))⟩
        · by_cases s5 : hq ≤ 5/6
          · exact ⟨Or.inr (Or.inr (hue2rgb_q p q _ (by linarith) (by linarith))),
              Or.inr (Or.inl (hue2rgb_p_high p q _ (by linarith) (by linarith)))⟩
          · exact ⟨Or.inl (hue2rgb_q_over p q _ (by linarith) (by linarith) (by linarith)),
              Or.inr (Or.inl (hue2rgb_p_high p q _ (by linarith) (by linarith)))⟩

/-! ## Hex digit parsing bounds -/

/-- A hex digit character has value at most 15. -/
theorem hexCharVal_le (c : Char) : hexCharVal c ≤ 15 := by
  unfold hexCharVal
  have e0 : ('0' : Char).toNat = 48 := rfl
  have ea : ('a' : Char).toNat = 97 := rfl
  have eA : ('A' : Char).toNat = 65 := rfl
  split_ifs with h1 h2 h3
  · simp only [Bool.and_eq_true, decide_eq_true_eq] at h1
    have hc : c.toNat ≤ 57 := h1.2
    rw [e0]
    omega
  · simp only [Bool.and_eq_true, decide_eq_true_eq] at h2
    have hc1 : 97 ≤ c.toNat := h2.1
    have hc2 : c.toNat ≤ 102 := h2.2
    rw [ea]
    omega
  · simp only [Bool.and_eq_true, decide_eq_true_eq] at h3
    have hc1 : 65 ≤ c.toNat := h3.1
    have hc2 : c.toNat ≤ 70 := h3.2
    rw [eA]
    omega
  · omega

/-- Parsing two hex digits. -/
theorem parse2_eq (a b : Char) (ha : isHexDigitChar a = true)
    (hb : isHexDigitChar b = true) :
    parseIntHex [a, b] = 16 * hexCharVal a + hexCharVal b := by
  unfold parseIntHex parseIntHexAux
  rw [ha]
  show parseIntHexAux [b] (16 * 0 + hexCharVal a) = _
  unfold parseIntHexAux
  rw [hb]
  show 16 * (16 * 0 + hexCharVal a) + hexCharVal b = _
  ring

/-- A two-hex-digit value is a byte. -/
theorem parse2_le (a b : Char) (ha : isHexDigitChar a = true)
    (hb : isHexDigitChar b = true) : parseIntHex [a, b] ≤ 255 := by
  rw [parse2_eq a b ha hb]
  have h1 := hexCharVal_le a
  have h2 := hexCharVal_le b
  omega

/-- The hash character is not a hex digit, so a digit-only string is
    untouched by the hash removal. -/
theorem replaceFirstHash_of_digits (l : List Char)
    (h : ∀ c ∈ l, isHexDigitChar c = true) : replaceFirstHash l = l := by
  induction l with
  | nil => rfl
  | cons c cs ih =>
    unfold replaceFirstHash
    rw [if_neg, ih (fun x hx => h x (List.mem_cons_of_mem c hx))]
    intro he
    have := h c (List.mem_cons_self c cs)
    rw [he] at this
    exact absurd this (by decide)

/-! ## Claim C10 -/

/-- The claim's input format: exactly six hexadecimal digits, optionally
    prefixed with a hash. -/
def sixHexFormat (s : String) : Bool :=
  let l := if s.data.headD ' ' = '#' then s.data.tail else s.data
  decide (l.length = 6) && l.all isHexDigitChar

set_option maxHeartbeats 2000000 in
/-- Core of claim C10, phrased on the digit list left after hash
    removal. -/
theorem hexToHSL_core_valid (s : String) (l : List Char)
    (hs : replaceFirstHash s.data = l) (hlen : l.length = 6)
    (hdig : ∀ c ∈ l, isHexDigitChar c = true) :
    validateHSL (hexToHSL s) = true ∧
    (hexToHSL s).h.den = 1 ∧ (hexToHSL s).s.den = 1 ∧ (hexToHSL s).l.den = 1 := by
  rcases l with _ | ⟨c1, _ | ⟨c2, _ | ⟨c3, _ | ⟨c4, _ | ⟨c5, _ | ⟨c6, _ | ⟨c7, l⟩⟩⟩⟩⟩⟩⟩ <;>
    first
    | (exfalso
       simp only [List.length_cons, List.length_nil] at hlen
       omega)
    | skip
  have hd1 : isHexDigitChar c1 = true := hdig c1 (by simp)
  have hd2 : isHexDigitChar c2 = true := hdig c2 (by simp)
  have hd3 : isHexDigitChar c3 = true := hdig c3 (by simp)
  have hd4 : isHexDigitChar c4 = true := hdig c4 (by simp)
  have hd5 : isHexDigitChar c5 = true := hdig c5 (by simp)
  have hd6 : isHexDigitChar c6 = true := hdig c6 (by simp)
  have htake : (replaceFirstHash s.data).take 2 = [c1, c2] := by rw [hs]; rfl
  have htake2 : ((replaceFirstHash s.data).drop 2).take 2 = [c3, c4] := by rw [hs]; rfl
  have htake3 : ((replaceFirstHash s.data).drop 4).take 2 = [c5, c6] := by rw [hs]; rfl
  have hr0 : (0:ℚ) ≤ (parseIntHex [c1, c2] : ℚ) / 255 := by positivity
  have hg0 : (0:ℚ) ≤ (parseIntHex [c3, c4] : ℚ) / 255 := by positivity
  have hb0 : (0:ℚ) ≤ (parseIntHex [c5, c6] : ℚ) / 255 := by positivity
  have hr1 : (parseIntHex [c1, c2] : ℚ) / 255 ≤ 1 := by
    rw [div_le_one (by norm_num)]
    exact_mod_cast parse2_le c1 c2 hd1 hd2
  have hg1 : (parseIntHex [c3, c4] : ℚ) / 255 ≤ 1 := by
    rw [div_le_one (by norm_num)]
    exact_mod_cast parse2_le c3 c4 hd3 hd4
  have hb1 : (parseIntHex [c5, c6] : ℚ) / 255 ≤ 1 := by
    rw [div_le_one (by norm_num)]
    exact_mod_cast parse2_le c5 c6 hd5 hd6
  simp only [hexToHSL, htake, htake2, htake3]
  set r := (parseIntHex [c1, c2] : ℚ) / 255 with hrdef
  set g := (parseIntHex [c3, c4] : ℚ) / 255 with hgdef
  set b := (parseIntHex [c5, c6] : ℚ) / 255 with hbdef
  set maxv := max r (max g b) with hmaxdef
  set minv := min r (min g b) with hmindef
  have hminmax : minv ≤ maxv :=
    le_trans (min_le_left _ _) (le_max_left _ _)
  have h0min : 0 ≤ minv := le_min hr0 (le_min hg0 hb0)
  have hmax1 : maxv ≤ 1 := max_le hr1 (max_le hg1 hb1)
  have hrmem : minv ≤ r ∧ r ≤ maxv := ⟨min_le_left _ _, le_max_left _ _⟩
  have hgmem : minv ≤ g ∧ g ≤ maxv :=
    ⟨le_trans (min_le_right _ _) (min_le_left _ _),
     le_trans (le_max_left _ _) (le_max_right _ _)⟩
  have hbmem : minv ≤ b ∧ b ≤ maxv :=
    ⟨le_trans (min_le_right _ _) (min_le_right _ _),
     le_trans (le_max_right _ _) (le_max_right _ _)⟩
  have hL0 : 0 ≤ (maxv + minv) / 2 := by linarith
  have hL1 : (maxv + minv) / 2 ≤ 1 := by linarith
  have hsec : 0 ≤ (if maxv = minv then (0:ℚ)
      else if maxv = r then (g - b) / (maxv - minv) + ((if g < b then 6 else 0 : ℕ) : ℚ)
      else if maxv = g then (b - r) / (maxv - minv) + 2
      else (r - g) / (maxv - minv) + 4) ∧
      (if maxv = minv then (0:ℚ)
      else if maxv = r then (g - b) / (maxv - minv) + ((if g < b then 6 else 0 : ℕ) : ℚ)
      else if maxv = g then (b - r) / (maxv - minv) + 2
      else (r - g) / (maxv - minv) + 4) < 6 := by
    by_cases heq : maxv = minv
    · rw [if_pos heq]
      norm_num
    · have hdpos : 0 < maxv - minv := by
        rcases lt_or_eq_of_le hminmax with h | h
        · linarith
        · exact absurd h.symm heq
      have hquot : ∀ x y : ℚ, minv ≤ x → x ≤ maxv → minv ≤ y → y ≤ maxv →
          -1 ≤ (x - y) / (maxv - minv) ∧ (x - y) / (maxv - minv) ≤ 1 := by
        intro x y hx1 hx2 hy1 hy2
        constructor
        · rw [le_div_iff hdpos]
          linarith
        · rw [div_le_one hdpos]
          linarith
      rw [if_neg heq]
      by_cases hmr : maxv = r
      · rw [if_pos hmr]
        have hq := hquot g b hgmem.1 hgmem.2 hbmem.1 hbmem.2
        by_cases hgb : g < b
        · rw [if_pos hgb]
          have hneg : (g - b) / (maxv - minv) < 0 :=
            div_neg_of_neg_of_pos (by linarith) hdpos
          constructor <;> push_cast <;> linarith
        · rw [if_neg hgb]
          push_neg at hgb
          have hpos : 0 ≤ (g - b) / (maxv - minv) :=
            div_nonneg (by linarith) (le_of_lt hdpos)
          constructor <;> push_cast <;> linarith
      · rw [if_neg hmr]
        by_cases hmg : maxv = g
        · rw [if_pos hmg]
          have hq := hquot b r hbmem.1 hbmem.2 hrmem.1 hrmem.2
          constructor <;> linarith
        · rw [if_neg hmg]
          have hq := hquot r g hrmem.1 hrmem.2 hgmem.1 hgmem.2
          constructor <;> linarith
  have hsv : 0 ≤ (if maxv = minv then (0:ℚ)
      else if (maxv + minv) / 2 > 1/2 then (maxv - minv) / (2 - maxv - minv)
      else (maxv - minv) / (maxv + minv)) ∧
      (if maxv = minv then (0:ℚ)
      else if (maxv + minv) / 2 > 1/2 then (maxv - minv) / (2 - maxv - minv)
      else (maxv - minv) / (maxv + minv)) ≤ 1 := by
    by_cases heq : maxv = minv
    · rw [if_pos heq]
      norm_num
    · have hdpos : 0 < maxv - minv := by
        rcases lt_or_eq_of_le hminmax with h | h
        · linarith
        · exact absurd h.symm heq
      rw [if_neg heq]
      by_cases hl2 : (maxv + minv) / 2 > 1/2
      · rw [if_pos hl2]
        have hden : 0 < 2 - maxv - minv := by linarith
        constructor
        · exact div_nonneg (by linarith) (by linarith)
        · rw [div_le_one hden]
          linarith
      · rw [if_neg hl2]
        push_neg at hl2
        have hden : 0 < maxv + minv := by
          rcases lt_or_eq_of_le h0min with h | h
          · linarith
          · rcases lt_or_eq_of_le (le_trans h0min hminmax) with h2 | h2
            · linarith
            · exact absurd (by rw [← h2, ← h]) heq
        constructor
        · exact div_nonneg (by linarith) (by linarith)
        · rw [div_le_one hden]
          linarith
  refine ⟨?_, Rat.den_intCast _, Rat.den_intCast _, Rat.den_intCast _⟩
  simp only [validateHSL, Bool.and_eq_true, decide_eq_true_eq]
  refine ⟨⟨⟨⟨⟨?_, ?_⟩, ?_⟩, ?_⟩, ?_⟩, ?_⟩
  · exact_mod_cast mathRound_nonneg _ (by nlinarith [hsec.1])
  · exact_mod_cast mathRound_le_of_le _ 360 (by nlinarith [hsec.2])
  · exact_mod_cast mathRound_nonneg _ (by nlinarith [hsv.1])
  · exact_mod_cast mathRound_le_of_le _ 100 (by nlinarith [hsv.2])
  · exact_mod_cast mathRound_nonneg _ (by nlinarith [hL0])
  · exact_mod_cast mathRound_le_of_le _ 100 (by nlinarith [hL1])

/-- C10: on every input of exactly six hexadecimal digits, optionally
    prefixed with a hash, hexToHSL returns integer components with
    h in [0,360] and s, l in [0,100], so validateHSL accepts the
    result. -/
theorem C10_theorem (s : String) (hfmt : sixHexFormat s = true) :
    validateHSL (hexToHSL s) = true ∧
    (hexToHSL s).h.den = 1 ∧ (hexToHSL s).s.den = 1 ∧ (hexToHSL s).l.den = 1 := by
  simp only [sixHexFormat] at hfmt
  by_cases hh : s.data.headD ' ' = '#'
  · rw [if_pos hh] at hfmt
    simp only [Bool.and_eq_true, decide_eq_true_eq, List.all_eq_true] at hfmt
    refine hexToHSL_core_valid s s.data.tail ?_ hfmt.1 hfmt.2
    rcases hd : s.data with _ | ⟨c, rest⟩
    · rw [hd] at hh
      exact absurd hh (by decide)
    · rw [hd] at hh
      simp only [List.headD_cons] at hh
      subst hh
      unfold replaceFirstHash
      rw [if_pos rfl]
      rfl
  · rw [if_neg hh] at hfmt
    simp only [Bool.and_eq_true, decide_eq_true_eq, List.all_eq_true] at hfmt
    exact hexToHSL_core_valid s s.data
      (replaceFirstHash_of_digits s.data hfmt.2) hfmt.1 hfmt.2

/-- Witness for C10 at the concrete input "#ff8800". -/
theorem C10_witness :
    sixHexFormat "#ff8800" = true ∧
    (validateHSL (hexToHSL "#ff8800") = true ∧
     (hexToHSL "#ff8800").h.den = 1 ∧ (hexToHSL "#ff8800").s.den = 1 ∧
     (hexToHSL "#ff8800").l.den = 1) :=
  ⟨by decide, C10_theorem "#ff8800" (by decide)⟩

/-! ## Claim C2 -/

/-- hexDigitChar produces a hex digit that hexCharVal inverts. -/
theorem hexDigitChar_spec (k : ℕ) (hk : k < 16) :
    isHexDigitChar (hexDigitChar k) = true ∧ hexCharVal (hexDigitChar k) = k := by
  interval_cases k <;> exact ⟨by decide, by decide⟩

/-- toHexByte of a byte value: exactly two hex digits that parse back to
    the byte. -/
theorem toHexByte_spec (n : ℕ) (hn : n ≤ 255) :
    (toHexByte n).data.length = 2 ∧
    (∀ c ∈ (toHexByte n).data, isHexDigitChar c = true) ∧
    parseIntHex (toHexByte n).data = n := by
  by_cases h16 : n < 16
  · have e : toHexByte n = ⟨['0', hexDigitChar n]⟩ := by
      simp only [toHexByte, if_pos h16]
      rfl
    rw [e]
    refine ⟨rfl, ?_, ?_⟩
    · intro c hc
      simp only [List.mem_cons, List.not_mem_nil, or_false] at hc
      rcases hc with hc | hc
      · rw [hc]; decide
      · rw [hc]; exact (hexDigitChar_spec n h16).1
    · show parseIntHex ['0', hexDigitChar n] = n
      rw [parse2_eq '0' (hexDigitChar n) (by decide) (hexDigitChar_spec n h16).1,
        (hexDigitChar_spec n h16).2, show hexCharVal '0' = 0 from by decide]
      omega
  · have hq16 : n / 16 < 16 := by omega
    have hr16 : n % 16 < 16 := by omega
    have e : toHexByte n = ⟨[hexDigitChar (n / 16), hexDigitChar (n % 16)]⟩ := by
      simp only [toHexByte, if_neg h16]
      rfl
    rw [e]
    refine ⟨rfl, ?_, ?_⟩
    · intro c hc
      simp only [List.mem_cons, List.not_mem_nil, or_false] at hc
      rcases hc with hc | hc
      · rw [hc]; exact (hexDigitChar_spec _ hq16).1
      · rw [hc]; exact (hexDigitChar_spec _ hr16).1
    · show parseIntHex [hexDigitChar (n / 16), hexDigitChar (n % 16)] = n
      rw [parse2_eq _ _ (hexDigitChar_spec _ hq16).1 (hexDigitChar_spec _ hr16).1,
        (hexDigitChar_spec _ hq16).2, (hexDigitChar_spec _ hr16).2]
      omega

set_option maxHeartbeats 1000000 in
/-- Reading back the lightness: when three channel values between p and q
    with p + q = 2·lint/100 are encoded as bytes, hexToHSL recovers
    exactly lint as the l component. -/
theorem hexToHSL_l_of_channels (v1 v2 v3 p q : ℚ) (lint : ℕ)
    (hp0 : 0 ≤ p) (hq1 : q ≤ 1) (hpq : p ≤ q)
    (hv1 : p ≤ v1 ∧ v1 ≤ q) (hv2 : p ≤ v2 ∧ v2 ≤ q) (hv3 : p ≤ v3 ∧ v3 ≤ q)
    (hattq : v1 = q ∨ v2 = q ∨ v3 = q)
    (hattp : v1 = p ∨ v2 = p ∨ v3 = p)
    (hsum : p + q = 2 * ((lint : ℚ) / 100)) :
    (hexToHSL ("#" ++ toHexByte (mathRound (v1 * 255)).toNat ++
        toHexByte (mathRound (v2 * 255)).toNat ++
        toHexByte (mathRound (v3 * 255)).toNat)).l = (lint : ℚ) := by
  have hz1 : 0 ≤ mathRound (v1 * 255) := mathRound_nonneg _ (by nlinarith [hv1.1])
  have hz2 : 0 ≤ mathRound (v2 * 255) := mathRound_nonneg _ (by nlinarith [hv2.1])
  have hz3 : 0 ≤ mathRound (v3 * 255) := mathRound_nonneg _ (by nlinarith [hv3.1])
  have hc1 : ((mathRound (v1 * 255)).toNat : ℤ) = mathRound (v1 * 255) :=
    Int.toNat_of_nonneg hz1
  have hc2 : ((mathRound (v2 * 255)).toNat : ℤ) = mathRound (v2 * 255) :=
    Int.toNat_of_nonneg hz2
  have hc3 : ((mathRound (v3 * 255)).toNat : ℤ) = mathRound (v3 * 255) :=
    Int.toNat_of_nonneg hz3
  have hb1 : (mathRound (v1 * 255)).toNat ≤ 255 :=
    Int.toNat_le.mpr (mathRound_le_of_le _ 255 (by push_cast; nlinarith [hv1.2]))
  have hb2 : (mathRound (v2 * 255)).toNat ≤ 255 :=
    Int.toNat_le.mpr (mathRound_le_of_le _ 255 (by push_cast; nlinarith [hv2.2]))
  have hb3 : (mathRound (v3 * 255)).toNat ≤ 255 :=
    Int.toNat_le.mpr (mathRound_le_of_le _ 255 (by push_cast; nlinarith [hv3.2]))
  obtain ⟨hlen1, hdig1, hparse1⟩ := toHexByte_spec _ hb1
  obtain ⟨hlen2, hdig2, hparse2⟩ := toHexByte_spec _ hb2
  obtain ⟨hlen3, hdig3, hparse3⟩ := toHexByte_spec _ hb3
  set t1 := toHexByte (mathRound (v1 * 255)).toNat with ht1
  set t2 := toHexByte (mathRound (v2 * 255)).toNat with ht2
  set t3 := toHexByte (mathRound (v3 * 255)).toNat with ht3
  have hdata : ("#" ++ t1 ++ t2 ++ t3).data =
      '#' :: (t1.data ++ (t2.data ++ t3.data)) := by
    simp only [String.data_append, List.append_assoc]
    rfl
  have hrep : replaceFirstHash ("#" ++ t1 ++ t2 ++ t3).data =
      t1.data ++ (t2.data ++ t3.data) := by
    rw [hdata]
    unfold replaceFirstHash
    rw [if_pos rfl]
  have htk1 : (replaceFirstHash ("#" ++ t1 ++ t2 ++ t3).data).take 2 = t1.data := by
    rw [hrep]
    exact List.take_left' hlen1
  have hdr2 : (replaceFirstHash ("#" ++ t1 ++ t2 ++ t3).data).drop 2 =
      t2.data ++ t3.data := by
    rw [hrep]
    exact List.drop_left' hlen1
  have htk2 : ((replaceFirstHash ("#" ++ t1 ++ t2 ++ t3).data).drop 2).take 2 =
      t2.data := by
    rw [hdr2]
    exact List.take_left' hlen2
  have htk3 : ((replaceFirstHash ("#" ++ t1 ++ t2 ++ t3).data).drop 4).take 2 =
      t3.data := by
    have h4 : (replaceFirstHash ("#" ++ t1 ++ t2 ++ t3).data).drop 4 =
        ((replaceFirstHash ("#" ++ t1 ++ t2 ++ t3).data).drop 2).drop 2 := by
      rw [List.drop_drop]
    rw [h4, hdr2, List.drop_left' hlen2, ← hlen3, List.take_length]
  simp only [hexToHSL, htk1, htk2, htk3, hparse1, hparse2, hparse3]
  set N1 := (mathRound (v1 * 255)).toNat with hN1
  set N2 := (mathRound (v2 * 255)).toNat with hN2
  set N3 := (mathRound (v3 * 255)).toNat with hN3
  set Q := mathRound (q * 255) with hQ
  set P := mathRound (p * 255) with hP
  have hle1 : ((N1 : ℚ)) ≤ (Q : ℚ) := by
    have hz : (N1 : ℤ) ≤ Q := by
      rw [hc1]
      exact mathRound_mono _ _ (by nlinarith [hv1.2])
    exact_mod_cast hz
  have hle2 : ((N2 : ℚ)) ≤ (Q : ℚ) := by
    have hz : (N2 : ℤ) ≤ Q := by
      rw [hc2]
      exact mathRound_mono _ _ (by nlinarith [hv2.2])
    exact_mod_cast hz
  have hle3 : ((N3 : ℚ)) ≤ (Q : ℚ) := by
    have hz : (N3 : ℤ) ≤ Q := by
      rw [hc3]
      exact mathRound_mono _ _ (by nlinarith [hv3.2])
    exact_mod_cast hz
  have hge1 : (P : ℚ) ≤ ((N1 : ℚ)) := by
    have hz : P ≤ (N1 : ℤ) := by
      rw [hc1]
      exact mathRound_mono _ _ (by nlinarith [hv1.1])
    exact_mod_cast hz
  have hge2 : (P : ℚ) ≤ ((N2 : ℚ)) := by
    have hz : P ≤ (N2 : ℤ) := by
      rw [hc2]
      exact mathRound_mono _ _ (by nlinarith [hv2.1])
    exact_mod_cast hz
  have hge3 : (P : ℚ) ≤ ((N3 : ℚ)) := by
    have hz : P ≤ (N3 : ℤ) := by
      rw [hc3]
      exact mathRound_mono _ _ (by nlinarith [hv3.1])
    exact_mod_cast hz
  have hmaxEq : max ((N1 : ℚ) / 255) (max ((N2 : ℚ) / 255) ((N3 : ℚ) / 255)) =
      (Q : ℚ) / 255 := by
    apply le_antisymm
    · apply max_le
      · push_cast at hle1 ⊢
        linarith
      · apply max_le <;> push_cast at hle2 hle3 ⊢ <;> linarith
    · rcases hattq with hv | hv | hv
      · have : ((N1 : ℤ) : ℚ) = (Q : ℚ) := by
          rw [hN1, hQ, ← hv]
          exact_mod_cast hc1
        apply le_max_of_le_left
        push_cast at this ⊢
        linarith
      · have : ((N2 : ℤ) : ℚ) = (Q : ℚ) := by
          rw [hN2, hQ, ← hv]
          exact_mod_cast hc2
        apply le_max_of_le_right
        apply le_max_of_le_left
        push_cast at this ⊢
        linarith
      · have : ((N3 : ℤ) : ℚ) = (Q : ℚ) := by
          rw [hN3, hQ, ← hv]
          exact_mod_cast hc3
        apply le_max_of_le_right
        apply le_max_of_le_right
        push_cast at this ⊢
        linarith
  have hminEq : min ((N1 : ℚ) / 255) (min ((N2 : ℚ) / 255) ((N3 : ℚ) / 255)) =
      (P : ℚ) / 255 := by
    apply le_antisymm
    · rcases hattp with hv | hv | hv
      · have : ((N1 : ℤ) : ℚ) = (P : ℚ) := by
          rw [hN1, hP, ← hv]
          exact_mod_cast hc1
        apply min_le_of_left_le
        push_cast at this ⊢
        linarith
      · have : ((N2 : ℤ) : ℚ) = (P : ℚ) := by
          rw [hN2, hP, ← hv]
          exact_mod_cast hc2
        apply min_le_of_right_le
        apply min_le_of_left_le
        push_cast at this ⊢
        linarith
      · have : ((N3 : ℤ) : ℚ) = (P : ℚ) := by
          rw [hN3, hP, ← hv]
          exact_mod_cast hc3
        apply min_le_of_right_le
        apply min_le_of_right_le
        push_cast at this ⊢
        linarith
    · apply le_min
      · push_cast at hge1 ⊢
        linarith
      · apply le_min <;> push_cast at hge2 hge3 ⊢ <;> linarith
  rw [hmaxEq, hminEq]
  have hQub : (Q : ℚ) ≤ q * 255 + 1/2 := mathRound_le_add_half _
  have hQlb : q * 255 - 1/2 < (Q : ℚ) := lt_mathRound_add_half _
  have hPub : (P : ℚ) ≤ p * 255 + 1/2 := mathRound_le_add_half _
  have hPlb : p * 255 - 1/2 < (P : ℚ) := lt_mathRound_add_half _
  have hfinal : mathRound (((Q : ℚ) / 255 + (P : ℚ) / 255) / 2 * 100) = (lint : ℤ) := by
    apply mathRound_eq_of_close
    · push_cast
      linarith
    · push_cast
      linarith
  rw [hfinal]
  show ((lint : ℤ) : ℚ) = (lint : ℚ)
  push_cast
  rfl

/-- C2 counterexample: the round-trip hexToHSL ∘ hslToHex is not within
    one unit per component: hsl(0, 50%, 1%) comes back with s = 60, off
    by 10, and hsl(360, 100%, 50%) comes back with h = 0, off by 360. -/
theorem C2_counterexample :
    (hexToHSL (hslToHex ⟨0, 50, 1⟩) = ⟨0, 60, 1⟩ ∧
      ¬ ((hexToHSL (hslToHex ⟨0, 50, 1⟩)).s - 50 ≤ 1 ∧
         50 - (hexToHSL (hslToHex ⟨0, 50, 1⟩)).s ≤ 1)) ∧
    (hexToHSL (hslToHex ⟨360, 100, 50⟩) = ⟨0, 100, 50⟩ ∧
      ¬ ((hexToHSL (hslToHex ⟨360, 100, 50⟩)).h - 360 ≤ 1 ∧
         360 - (hexToHSL (hslToHex ⟨360, 100, 50⟩)).h ≤ 1)) := by
  with_unfolding_all decide

set_option maxHeartbeats 1000000 in
/-- C2 amended: the lightness component round-trips exactly: for natural
    h ≤ 360, s ≤ 100, l ≤ 100, hexToHSL (hslToHex ⟨h, s, l⟩) returns l
    exactly (the claimed ±1 tolerance fails for h and s, but holds with
    tolerance 0 for l). -/
theorem C2_amended (h s l : ℕ) (hh : h ≤ 360) (hs : s ≤ 100) (hl : l ≤ 100) :
    (hexToHSL (hslToHex ⟨(h : ℚ), (s : ℚ), (l : ℚ)⟩)).l = (l : ℚ) := by
  have hL0 : (0:ℚ) ≤ (l:ℚ)/100 := by positivity
  have hL1 : (l:ℚ)/100 ≤ 1 := by
    rw [div_le_one (by norm_num)]
    exact_mod_cast hl
  have hS0 : (0:ℚ) ≤ (s:ℚ)/100 := by positivity
  have hS1 : (s:ℚ)/100 ≤ 1 := by
    rw [div_le_one (by norm_num)]
    exact_mod_cast hs
  have hH0 : (0:ℚ) ≤ (h:ℚ)/360 := by positivity
  have hH1 : (h:ℚ)/360 ≤ 1 := by
    rw [div_le_one (by norm_num)]
    exact_mod_cast hh
  by_cases hs0 : ((s:ℚ))/100 = 0
  · simp only [hslToHex, if_pos hs0]
    exact hexToHSL_l_of_channels _ _ _ ((l:ℚ)/100) ((l:ℚ)/100) l hL0 hL1 (le_refl _)
      ⟨le_refl _, le_refl _⟩ ⟨le_refl _, le_refl _⟩ ⟨le_refl _, le_refl _⟩
      (Or.inl rfl) (Or.inl rfl) (by ring)
  · simp only [hslToHex, if_neg hs0]
    set L := (l:ℚ)/100 with hLdef
    set S := (s:ℚ)/100 with hSdef
    set H := (h:ℚ)/360 with hHdef
    set qv := if L < 1/2 then L * (1 + S) else L + S - L * S with hqv
    set pv := 2 * L - qv with hpv
    have hqvL : L ≤ qv := by
      rw [hqv]
      split_ifs with hc
      · nlinarith
      · nlinarith
    have hqv1 : qv ≤ 1 := by
      rw [hqv]
      split_ifs with hc
      · nlinarith
      · nlinarith
    have hpv0 : 0 ≤ pv := by
      rw [hpv, hqv]
      split_ifs with hc
      · nlinarith
      · nlinarith
    have hpq : pv ≤ qv := by
      rw [hpv]
      linarith
    have hbd1 := hue2rgb_bounds pv qv (H + 1/3) hpq (by linarith) (by linarith)
    have hbd2 := hue2rgb_bounds pv qv H hpq (by linarith) (by linarith)
    have hbd3 := hue2rgb_bounds pv qv (H - 1/3) hpq (by linarith) (by linarith)
    have hatt := hue2rgb_attains pv qv H hpq hH0 hH1
    exact hexToHSL_l_of_channels _ _ _ pv qv l hpv0 hqv1 hpq hbd1 hbd2 hbd3
      hatt.1 hatt.2 (by rw [hpv, hLdef]; ring)

/-- Witness for the amended C2 at h = 50, s = 60, l = 70. -/
theorem C2_witness :
    (50 : ℕ) ≤ 360 ∧ (60 : ℕ) ≤ 100 ∧ (70 : ℕ) ≤ 100 ∧
    (hexToHSL (hslToHex ⟨((50 : ℕ) : ℚ), ((60 : ℕ) : ℚ), ((70 : ℕ) : ℚ)⟩)).l =
      ((70 : ℕ) : ℚ) :=
  ⟨by decide, by decide, by decide,
    C2_amended 50 60 70 (by decide) (by decide) (by decide)⟩
